import Mathlib

/-!
Verification development for the AGM trader strategy engine.

The Python sources are shallowly embedded over exact rationals:

* `calculateParabolicSar` — `IchimokuBase._calculate_parabolic_sar`
  (src/src/lib/strategy.py, identical copy in src/src/components/strategy.py);
* `psarSpecClaim` / `psarSpecAmended` — the recurrence as the specification
  words it, and the minimally amended ordering actually used by the code;
* `calculateTenkan` / `calculateKijun` — `_calculate_tenkan` / `_calculate_kijun`;
* `calculatePsarIchimoku`, `updateState`, `ichimokuRun` — the simplified
  `IchimokuBase` variant in src/src/components/strategy/ichimoku_base.py
  (`_calculate_psar` and `run`);
* `btStep`, `backtestGo`, `ichimokuBacktest` — that file's `backtest`;
* `libRun` and its helper predicates — `IchimokuBase.run` in
  src/src/lib/strategy.py;
* `createOrders` — `IchimokuBase.create_orders` (src/src/lib/strategy.py,
  identical quantity/price logic in src/src/components/strategy.py).

Prices are ℚ (the Python floats, modelled exactly); bar timestamps are
abstracted to the two derived facts the code reads from them (weekday and
ISO week number).  Python `None` becomes `Option`.
-/

/-- Trading direction of a trend or position. -/
inductive Dir where
  | long
  | short
deriving DecidableEq, Repr, Inhabited

/-- Decision returned by a strategy `run` call.  The source returns the
strings STAY / LONG / SHORT / EXIT / `PARTIAL_EXIT_<q>` / `ADD_LONG_<q>` /
`ADD_SHORT_<q>`; here the embedded quantity is carried as a constructor
argument (the backtest parses it back out of the string with
`int(decision.split('_')[-1])`). -/
inductive Decision where
  | stay
  | long
  | short
  | exit
  | partExit (q : ℕ)
  | addLong (q : ℕ)
  | addShort (q : ℕ)
deriving DecidableEq, Repr, Inhabited

/-- One OHLC bar.  `weekday` (Monday = 0 … Friday = 4) and `isoWeek` are the
two facts `_get_weekly_candle` derives from the bar's `date` field. -/
structure Bar where
  open_ : ℚ
  high : ℚ
  low : ℚ
  close : ℚ
  weekday : ℕ
  isoWeek : ℕ
deriving DecidableEq, Repr, Inhabited

/-- Default starting acceleration factor (`start_af=0.02`). -/
def startAf : ℚ := 1/50

/-- Acceleration factor increment (`increment_af=0.02`). -/
def incAf : ℚ := 1/50

/-- Acceleration factor cap (`max_af=0.20`). -/
def maxAf : ℚ := 1/5

/-- Last element of a rational series (`series[-1]`), 0 if empty. -/
def lastQ (l : List ℚ) : ℚ := l.getLast?.getD 0

/-- Second to last element of a rational series (`series[-2]`), 0 if absent. -/
def prevQ (l : List ℚ) : ℚ := l.dropLast.getLast?.getD 0

/-- Last bar of a data list (`data[-1]`). -/
def lastBar (data : List Bar) : Bar := data.getLast?.getD default

/-- Second to last bar of a data list (`data[-2]`). -/
def prevBar (data : List Bar) : Bar := data.dropLast.getLast?.getD default

/-! ### Parabolic SAR, lib/strategy.py version

`_calculate_parabolic_sar` keeps the running state (bullish, af, ep, previous
SAR) and, per bar: extrapolates; tests the flip on the *unclamped* value;
on no flip it updates EP/AF on a new extreme and only then clamps the SAR to
the previous bar's low (high).  `psarGo` threads that state through the list
of bars beyond the first, carrying the previous bar's low/high. -/

def psarGo (bullish : Bool) (af ep sar pl ph : ℚ) : List Bar → List ℚ
  | [] => []
  | b :: bs =>
    let raw := sar + af * (ep - sar)
    if bullish then
      if raw > b.low then
        ep :: psarGo false startAf b.low ep b.low b.high bs
      else
        let ep2 := if b.high > ep then b.high else ep
        let af2 := if b.high > ep then min (af + incAf) maxAf else af
        let v := min raw pl
        v :: psarGo true af2 ep2 v b.low b.high bs
    else
      if raw < b.high then
        ep :: psarGo true startAf b.high ep b.low b.high bs
      else
        let ep2 := if b.low < ep then b.low else ep
        let af2 := if b.low < ep then min (af + incAf) maxAf else af
        let v := max raw ph
        v :: psarGo false af2 ep2 v b.low b.high bs

/-- `IchimokuBase._calculate_parabolic_sar` (src/src/lib/strategy.py lines
532-612): starts bullish with `ep = high[0]`, `psar[0] = low[0]`,
`af = start_af`. -/
def calculateParabolicSar : List Bar → List ℚ
  | [] => []
  | b0 :: rest => b0.low :: psarGo true startAf b0.high b0.low b0.low b0.high rest

/-! ### Parabolic SAR as the specification words it (claim C1)

“extrapolate `psar = psar_prev + af*(ep - psar_prev)`; on a bullish leg,
clamp `psar <= low[i-1]` **before the flip test**; if `psar > low[i]` the
trend flips …; `ep`/`af` update when a new extreme is made, capped at
`max_af`.” -/

def psarClaimGo (bullish : Bool) (af ep sar pl ph : ℚ) : List Bar → List ℚ
  | [] => []
  | b :: bs =>
    let raw := sar + af * (ep - sar)
    let clamped := if bullish then min raw pl else max raw ph
    if bullish then
      if clamped > b.low then
        ep :: psarClaimGo false startAf b.low ep b.low b.high bs
      else
        let ep2 := if b.high > ep then b.high else ep
        let af2 := if b.high > ep then min (af + incAf) maxAf else af
        clamped :: psarClaimGo true af2 ep2 clamped b.low b.high bs
    else
      if clamped < b.high then
        ep :: psarClaimGo true startAf b.high ep b.low b.high bs
      else
        let ep2 := if b.low < ep then b.low else ep
        let af2 := if b.low < ep then min (af + incAf) maxAf else af
        clamped :: psarClaimGo false af2 ep2 clamped b.low b.high bs

/-- The PSAR recurrence exactly as the claim states it (clamp applied before
the flip test). -/
def psarSpecClaim : List Bar → List ℚ
  | [] => []
  | b0 :: rest => b0.low :: psarClaimGo true startAf b0.high b0.low b0.low b0.high rest

/-! ### Amended specification recurrence

Same recurrence, but the flip test uses the unclamped extrapolated value and
the one-bar clamp is applied on the no-flip branch only — the ordering the
code actually implements. -/

/-- Extrapolation step of the SAR recurrence. -/
def psarExtrapolate (af ep sar : ℚ) : ℚ := sar + af * (ep - sar)

/-- Acceleration-factor bump, capped at `maxAf`. -/
def psarAccel (af : ℚ) : ℚ := min (af + incAf) maxAf

def psarAmendGo (bullish : Bool) (af ep sar pl ph : ℚ) : List Bar → List ℚ
  | [] => []
  | b :: bs =>
    let raw := psarExtrapolate af ep sar
    if bullish then
      if raw > b.low then
        ep :: psarAmendGo false startAf b.low ep b.low b.high bs
      else
        let newExtreme := b.high > ep
        let v := min raw pl
        v :: psarAmendGo true (if newExtreme then psarAccel af else af)
          (if newExtreme then b.high else ep) v b.low b.high bs
    else
      if raw < b.high then
        ep :: psarAmendGo true startAf b.high ep b.low b.high bs
      else
        let newExtreme := b.low < ep
        let v := max raw ph
        v :: psarAmendGo false (if newExtreme then psarAccel af else af)
          (if newExtreme then b.low else ep) v b.low b.high bs

/-- The specified recurrence with the minimal amendment forced by the code:
flip test on the unclamped value, clamp on the no-flip branch. -/
def psarSpecAmended : List Bar → List ℚ
  | [] => []
  | b0 :: rest => b0.low :: psarAmendGo true startAf b0.high b0.low b0.low b0.high rest

/-! ### Tenkan / Kijun -/

/-- The last `k` bars of a data list — Python's `data[-k:]` (for nonempty
`data` and `k ≥ 1` this is the last `min k data.length` bars). -/
def lastNBars (k : ℕ) (data : List Bar) : List Bar := data.drop (data.length - k)

/-- `max(day['high'] for day in slice)` — maximum of the highs, folded from
the head (Python `max` raises on an empty sequence; the `[]` case is the
unreachable default). -/
def maxHighOf : List Bar → ℚ
  | [] => 0
  | b :: bs => bs.foldl (fun a x => max a x.high) b.high

/-- `min(day['low'] for day in slice)`. -/
def minLowOf : List Bar → ℚ
  | [] => 0
  | b :: bs => bs.foldl (fun a x => min a x.low) b.low

/-- `_calculate_tenkan` (src/src/lib/strategy.py lines 520-524, identical
`calculate_tenkan` in src/src/components/strategy.py):
`0.5 * (max high + min low)` over `data[-5:]`. -/
def calculateTenkan (data : List Bar) : ℚ :=
  (1/2) * (maxHighOf (lastNBars 5 data) + minLowOf (lastNBars 5 data))

/-- `_calculate_kijun`: the same over `data[-21:]`. -/
def calculateKijun (data : List Bar) : ℚ :=
  (1/2) * (maxHighOf (lastNBars 21 data) + minLowOf (lastNBars 21 data))

/-! ### Parabolic SAR, ichimoku_base.py variant

`IchimokuBase._calculate_psar` (src/src/components/strategy/ichimoku_base.py
lines 60-130) differs from the lib version: the initial trend is seeded from
`high[1] >= high[0]`, the clamp (applied *before* the flip test) uses the
previous **two** bars, and the EP/AF update runs after the flip handling in
the direction that is current after it.  `pl2`/`ph2` carry the
second-previous bar's low/high (`none` while processing `i = 1`). -/

def psarIchiGo (trendUp : Bool) (af ep sar : ℚ) (pl1 ph1 : ℚ)
    (pl2 ph2 : Option ℚ) : List Bar → List ℚ
  | [] => []
  | b :: bs =>
    let s1 := sar + af * (ep - sar)
    let s2 :=
      if trendUp then
        min s1 (match pl2 with | some l2 => min pl1 l2 | none => pl1)
      else
        max s1 (match ph2 with | some h2 => max ph1 h2 | none => ph1)
    let flipDown := trendUp && decide (b.low < s2)
    let flipUp := (!trendUp) && decide (b.high > s2)
    let tu3 := if flipDown then false else if flipUp then true else trendUp
    let s3 := if flipDown || flipUp then ep else s2
    let ep3 := if flipDown then b.low else if flipUp then b.high else ep
    let af3 := if flipDown || flipUp then startAf else af
    let newExt := if tu3 then decide (b.high > ep3) else decide (b.low < ep3)
    let ep4 := if newExt then (if tu3 then b.high else b.low) else ep3
    let af4 := if newExt then min (af3 + incAf) maxAf else af3
    s3 :: psarIchiGo tu3 af4 ep4 s3 b.low b.high (some pl1) (some ph1) bs

/-- `_calculate_psar` of src/src/components/strategy/ichimoku_base.py. -/
def calculatePsarIchimoku : List Bar → List ℚ
  | [] => []
  | [b0] => [b0.low]
  | b0 :: b1 :: rest =>
    let tu := decide (b1.high ≥ b0.high)
    let ep0 := if tu then b0.high else b0.low
    let sar0 := if tu then b0.low else b0.high
    sar0 :: psarIchiGo tu startAf ep0 sar0 b0.low b0.high none none (b1 :: rest)

/-- Latest PSAR value of the ichimoku variant (`psar_series[-1]`). -/
def latestPsarI (data : List Bar) : ℚ := lastQ (calculatePsarIchimoku data)

/-- Previous PSAR value of the ichimoku variant (`psar_series[-2]`). -/
def prevPsarI (data : List Bar) : ℚ := prevQ (calculatePsarIchimoku data)

/-- `latest_sign` in `run`: `-1 if latest_psar < latest_close else 1`
(-1 = bullish, +1 = bearish). -/
def latestSignI (data : List Bar) : ℤ :=
  if latestPsarI data < (lastBar data).close then -1 else 1

/-- `prev_sign` in `run`. -/
def prevSignI (data : List Bar) : ℤ :=
  if prevPsarI data < (prevBar data).close then -1 else 1

/-- Mutable attributes of the ichimoku_base `IchimokuBase` object that the
decision logic reads (`__init__` lines 40-54; the unread
`_prev_psar_sign` / `trend_start_idx` attributes are omitted). -/
structure IchimokuState where
  trendDirection : Option Dir
  candleCount : ℕ
  lastPrevPsar : Option ℚ
  firstPsar : Option ℚ
  diff : Option ℚ
  maxHighSinceStart : Option ℚ
  minLowSinceStart : Option ℚ
  tp1Level : Option ℚ
  tp2Level : Option ℚ
  tp1Hit : Bool
deriving DecidableEq, Repr

/-- The freshly constructed state (everything `None` / 0 / `False`). -/
def initIchimokuState : IchimokuState :=
  { trendDirection := none, candleCount := 0, lastPrevPsar := none,
    firstPsar := none, diff := none, maxHighSinceStart := none,
    minLowSinceStart := none, tp1Level := none, tp2Level := none,
    tp1Hit := false }

/-- Trend-state update block of `run` (ichimoku_base.py lines 184-215): on a
sign flip the trend baseline, PSAR jump, TP levels and extremes are reset;
otherwise, if a trend is already tracked, the candle counter and extremes
are advanced. -/
def updateState (st : IchimokuState) (data : List Bar) : IchimokuState :=
  if latestSignI data ≠ prevSignI data then
    let dir := if latestSignI data = -1 then Dir.long else Dir.short
    let pp := prevPsarI data
    let d := |pp - latestPsarI data|
    { trendDirection := some dir
      candleCount := 1
      lastPrevPsar := some pp
      firstPsar := some (latestPsarI data)
      diff := some d
      tp1Level := some (if dir = Dir.long then pp + 382/1000 * d else pp - 382/1000 * d)
      tp2Level := some (if dir = Dir.long then pp + 1/2 * d else pp - 1/2 * d)
      tp1Hit := false
      maxHighSinceStart := some (lastBar data).high
      minLowSinceStart := some (lastBar data).low }
  else if st.trendDirection.isSome then
    { st with
      candleCount := st.candleCount + 1
      maxHighSinceStart := some (match st.maxHighSinceStart with
        | some m => max m (lastBar data).high
        | none => (lastBar data).high)
      minLowSinceStart := some (match st.minLowSinceStart with
        | some m => min m (lastBar data).low
        | none => (lastBar data).low) }
  else st

/-- `has_open_position`: some entry of `params.positions` is nonzero. -/
def hasOpenPosition (pos : List ℤ) : Bool := pos.any (fun p => p != 0)

/-- `_get_position_direction`: sign of the first nonzero position. -/
def positionDirection (pos : List ℤ) : Option Dir :=
  match pos.find? (fun p => p != 0) with
  | some p => some (if p > 0 then Dir.long else Dir.short)
  | none => none

/-- Stop-loss rule of ichimoku_base `run` (lines 228-237): with an open
position and a tracked trend, a LONG exits when `lows[-1] <= latest_psar`, a
SHORT when `highs[-1] >= latest_psar`. -/
def stopOutCheck (data : List Bar) (pos : List ℤ) (s : IchimokuState) :
    Option Decision :=
  if hasOpenPosition pos && s.trendDirection.isSome then
    match positionDirection pos with
    | some Dir.long =>
      if (lastBar data).low ≤ latestPsarI data then some Decision.exit else none
    | some Dir.short =>
      if (lastBar data).high ≥ latestPsarI data then some Decision.exit else none
    | none => none
  else none

/-- Take-profit ladder of ichimoku_base `run` (lines 242-276).  Returns the
decision together with the (possibly mutated) state, because hitting TP1
sets `tp1_hit` before returning `PARTIAL_EXIT_6`. -/
def tpCheck (data : List Bar) (pos : List ℤ) (s : IchimokuState) :
    Option (Decision × IchimokuState) :=
  if hasOpenPosition pos then
    match s.tp1Level, s.tp2Level with
    | some t1, some t2 =>
      match positionDirection pos with
      | some Dir.long =>
        if (lastBar data).high ≥ t2 then some (Decision.exit, s)
        else if !s.tp1Hit && decide ((lastBar data).high ≥ t1) then
          some (Decision.partExit 6, { s with tp1Hit := true })
        else if s.tp1Hit && decide ((lastBar data).close < t1) then
          some (Decision.exit, s)
        else none
      | some Dir.short =>
        if (lastBar data).low ≤ t2 then some (Decision.exit, s)
        else if !s.tp1Hit && decide ((lastBar data).low ≤ t1) then
          some (Decision.partExit 6, { s with tp1Hit := true })
        else if s.tp1Hit && decide ((lastBar data).close > t1) then
          some (Decision.exit, s)
        else none
      | none => none
    | _, _ => none
  else none

/-- Flip-based entry rule of ichimoku_base `run` (lines 281-287). -/
def entryCheck (data : List Bar) (pos : List ℤ) : Option Decision :=
  if !hasOpenPosition pos then
    if prevSignI data = 1 ∧ latestSignI data = -1 then some Decision.long
    else if prevSignI data = -1 ∧ latestSignI data = 1 then some Decision.short
    else none
  else none

/-- Add-on / re-entry rule of ichimoku_base `run` (lines 292-311): requires
an *open* position in the trend direction within the first 4 candles;
thresholds are anchored at `last_prev_psar` with a 50% cap and a 38.2% size
split.  Missing extremes (where Python would raise a `TypeError`) yield no
signal. -/
def addOnCheck (data : List Bar) (pos : List ℤ) (s : IchimokuState) :
    Option Decision :=
  if hasOpenPosition pos && decide (s.candleCount ≤ 4) then
    match s.diff, s.lastPrevPsar with
    | some d, some lpp =>
      if positionDirection pos = some Dir.long ∧ s.trendDirection = some Dir.long then
        let condPrice := decide ((lastBar data).close > lpp)
        let condHighMax := match s.maxHighSinceStart with
          | some mh => decide (mh < lpp + 1/2 * d)
          | none => false
        if condPrice && condHighMax then
          some (Decision.addLong
            (if (lastBar data).close < lpp + 382/1000 * d then 12 else 6))
        else none
      else if positionDirection pos = some Dir.short ∧ s.trendDirection = some Dir.short then
        let condPrice := decide ((lastBar data).close < lpp)
        let condLowMin := match s.minLowSinceStart with
          | some ml => decide (ml > lpp - 1/2 * d)
          | none => false
        if condPrice && condLowMin then
          some (Decision.addShort
            (if (lastBar data).close > lpp - 382/1000 * d then 12 else 6))
        else none
      else none
    | _, _ => none
  else none

/-- Rule dispatch of ichimoku_base `run` after the state update: first
matching early `return` wins, in source order (stop-loss, take-profit
ladder, flip entry, add-on, STAY). -/
def decideRules (data : List Bar) (pos : List ℤ) (s : IchimokuState) :
    Decision × IchimokuState :=
  match stopOutCheck data pos s with
  | some a => (a, s)
  | none =>
    match tpCheck data pos s with
    | some r => r
    | none =>
      match entryCheck data pos with
      | some a => (a, s)
      | none =>
        match addOnCheck data pos s with
        | some a => (a, s)
        | none => (Decision.stay, s)

/-- `IchimokuBase.run` of src/src/components/strategy/ichimoku_base.py:
guard on fewer than 5 bars, then the trend-state update followed by the
prioritised rules. -/
def ichimokuRun (data : List Bar) (pos : List ℤ) (st : IchimokuState) :
    Decision × IchimokuState :=
  if data.length < 5 then (Decision.stay, st)
  else decideRules data pos (updateState st data)

/-! ### Backtest of ichimoku_base.py (lines 321-399)

The replay reveals an expanding prefix of the bar history to `run`, maps the
returned decision onto FIFO lot operations (`open_batch` / `close_batches`)
and mirrors the open lots into `params.positions`.  `entered` is a history
variable recording the total quantity ever opened; it is not in the source
and is used only to state conservation. -/

/-- Exit reason recorded on a closed `TradeSnapshot`. -/
inductive ExitReason where
  | tp1
  | exitSignal
  | endOfData
deriving DecidableEq, Repr

/-- A `TradeSnapshot` (src/src/lib/trade_snapshot.py): one lot, open while
`exitPrice` is `none`.  Entry/exit dates are irrelevant to the verified
properties and omitted. -/
structure Lot where
  side : Dir
  qty : ℕ
  entryPrice : ℚ
  exitPrice : Option ℚ
  exitReason : Option ExitReason
deriving DecidableEq, Repr

/-- `TradeSnapshot.close`. -/
def closeLot (l : Lot) (price : ℚ) (r : ExitReason) : Lot :=
  { l with exitPrice := some price, exitReason := some r }

/-- Total quantity held in a list of lots. -/
def sumQty (l : List Lot) : ℕ := (l.map Lot.qty).sum

/-- Quantity held in lots that are still open (exit not yet recorded). -/
def stillOpenQty (l : List Lot) : ℕ :=
  ((l.filter (fun x => x.exitPrice = none)).map Lot.qty).sum

/-- The `positions` entry a lot contributes
(`qty if side=='long' else -qty`). -/
def posOf (l : Lot) : ℤ := if l.side = Dir.long then (l.qty : ℤ) else -(l.qty : ℤ)

/-- `close_batches` (ichimoku_base.py lines 352-368): close `remaining`
contracts FIFO, splitting the head lot when it is larger than the remainder.
Returns the surviving open lots and the newly completed trades in append
order. -/
def closeBatches (remaining : ℕ) (price : ℚ) (r : ExitReason) :
    List Lot → List Lot × List Lot
  | [] => ([], [])
  | b :: bs =>
    if remaining = 0 then (b :: bs, [])
    else if b.qty ≤ remaining then
      let rec' := closeBatches (remaining - b.qty) price r bs
      (rec'.1, closeLot b price r :: rec'.2)
    else
      ({ b with qty := b.qty - remaining } :: bs,
       [closeLot { b with qty := remaining } price r])

/-- Simulator state owned by `backtest`. -/
structure BTState where
  strat : IchimokuState
  openBatches : List Lot
  completed : List Lot
  positions : List ℤ
  entered : ℕ
deriving DecidableEq, Repr

/-- Initial simulator state (`positions = []`, fresh strategy object). -/
def initBT : BTState :=
  { strat := initIchimokuState, openBatches := [], completed := [],
    positions := [], entered := 0 }

/-- `open_batch`: append a new lot and its `positions` entry. -/
def btOpen (side : Dir) (q : ℕ) (price : ℚ) (bt : BTState) : BTState :=
  { bt with
    openBatches := bt.openBatches ++
      [{ side := side, qty := q, entryPrice := price, exitPrice := none, exitReason := none }]
    positions := bt.positions ++ [if side = Dir.long then (q : ℤ) else -(q : ℤ)]
    entered := bt.entered + q }

/-- Close `q` contracts and rebuild `positions` from the surviving lots. -/
def btClose (q : ℕ) (price : ℚ) (r : ExitReason) (bt : BTState) : BTState :=
  let c := closeBatches q price r bt.openBatches
  { bt with
    openBatches := c.1
    completed := bt.completed ++ c.2
    positions := c.1.map posOf }

/-- One iteration of the replay loop body (ichimoku_base.py lines 339-391)
on the prefix `data[: idx + 1]`: call `run`, then map the decision onto the
lot operations.  The current candle is the last bar of the prefix. -/
def btStep (pre : List Bar) (bt : BTState) : Decision × BTState :=
  let r := ichimokuRun pre bt.positions bt.strat
  let candle := lastBar pre
  let bt1 := { bt with strat := r.2 }
  match r.1 with
  | Decision.long => (r.1, btOpen Dir.long 12 (r.2.lastPrevPsar.getD candle.close) bt1)
  | Decision.short => (r.1, btOpen Dir.short 12 (r.2.lastPrevPsar.getD candle.close) bt1)
  | Decision.addLong q => (r.1, btOpen Dir.long q candle.close bt1)
  | Decision.addShort q => (r.1, btOpen Dir.short q candle.close bt1)
  | Decision.partExit q =>
    (r.1, btClose q (r.2.tp1Level.getD candle.close) ExitReason.tp1 bt1)
  | Decision.exit =>
    (r.1, btClose (sumQty bt.openBatches) candle.close ExitReason.exitSignal bt1)
  | Decision.stay => (r.1, bt1)

/-- The replay loop: `fuel` bars remain, `idx` is the current index.  The
first five indices are skipped (`if idx < 5: continue`); a `none` decision
marks a skipped index so the emitted list stays aligned with bar indices. -/
def backtestGo (full : List Bar) : ℕ → ℕ → BTState → List (Option Decision) × BTState
  | 0, _, bt => ([], bt)
  | fuel + 1, idx, bt =>
    if idx < 5 then
      let r := backtestGo full fuel (idx + 1) bt
      (none :: r.1, r.2)
    else
      let s := btStep (full.take (idx + 1)) bt
      let r := backtestGo full fuel (idx + 1) s.2
      (some s.1 :: r.1, r.2)

/-- End-of-data handling (ichimoku_base.py lines 394-396): every remaining
open lot is closed in place at the final close and appended to the completed
trades; neither `open_batches` nor `positions` is cleared. -/
def endOfData (lastClose : ℚ) (bt : BTState) : BTState :=
  { bt with
    openBatches := bt.openBatches.map (fun l => closeLot l lastClose ExitReason.endOfData)
    completed := bt.completed ++
      bt.openBatches.map (fun l => closeLot l lastClose ExitReason.endOfData) }

/-- `IchimokuBase.backtest` of ichimoku_base.py: replay every bar, then the
end-of-data close-out. -/
def ichimokuBacktest (full : List Bar) : List (Option Decision) × BTState :=
  let r := backtestGo full full.length 0 initBT
  match full.getLast? with
  | some lb => (r.1, endOfData lb.close r.2)
  | none => r

/-! ### The full engine of src/src/lib/strategy.py (`IchimokuBase.run`)

This `run` is stateless over the bar history: every call recomputes the
indicators, flip bookkeeping and entry/exit flags from scratch.  The helper
functions below mirror the private methods of the class. -/

/-- `_is_psar_positive(current_psar, [bar])`: PSAR above the close. -/
def isPsarPositiveOn (v : ℚ) (b : Bar) : Bool := decide (v > b.close)

/-- `_is_psar_negative(current_psar, [bar])`. -/
def isPsarNegativeOn (v : ℚ) (b : Bar) : Bool := !isPsarPositiveOn v b

/-- Python negative indexing `l[-i]` on a rational series (0 if absent). -/
def negIdxQ (l : List ℚ) (i : ℕ) : ℚ := l.getD (l.length - i) 0

/-- Python negative indexing `data[-i]` on a bar list. -/
def negIdxBar (l : List Bar) (i : ℕ) : Bar := l.getD (l.length - i) default

/-- The negative-to-positive flip test at offset `i`
(`psar[-(i+1)]` negative on `data[-(i+1)]` and `psar[-i]` positive on
`data[-i]`). -/
def upFlipAt (psar : List ℚ) (data : List Bar) (i : ℕ) : Bool :=
  isPsarNegativeOn (negIdxQ psar (i + 1)) (negIdxBar data (i + 1)) &&
  isPsarPositiveOn (negIdxQ psar i) (negIdxBar data i)

/-- The positive-to-negative flip test at offset `i`. -/
def downFlipAt (psar : List ℚ) (data : List Bar) (i : ℕ) : Bool :=
  isPsarPositiveOn (negIdxQ psar (i + 1)) (negIdxBar data (i + 1)) &&
  isPsarNegativeOn (negIdxQ psar i) (negIdxBar data i)

/-- `_find_recent_trend_change` (lookback 4): first offset `1..4` with a
negative-to-positive change; `(False, 5)` when none, or when the series is
too short. -/
def findRecentTrendChange (psar : List ℚ) (data : List Bar) : Bool × ℕ :=
  if psar.length < 5 then (false, 5)
  else if upFlipAt psar data 1 then (true, 1)
  else if upFlipAt psar data 2 then (true, 2)
  else if upFlipAt psar data 3 then (true, 3)
  else if upFlipAt psar data 4 then (true, 4)
  else (false, 5)

/-- `_find_recent_downtrend_change` (lookback 4). -/
def findRecentDowntrendChange (psar : List ℚ) (data : List Bar) : Bool × ℕ :=
  if psar.length < 5 then (false, 5)
  else if downFlipAt psar data 1 then (true, 1)
  else if downFlipAt psar data 2 then (true, 2)
  else if downFlipAt psar data 3 then (true, 3)
  else if downFlipAt psar data 4 then (true, 4)
  else (false, 5)

/-- Scan loop of `_get_trend_change_psars`: walk `i = 1, 2, …` until a
negative-to-positive change is found, returning
(last PSAR of the previous downtrend, first PSAR of the uptrend). -/
def trendChangeScan (psar : List ℚ) (data : List Bar) : ℕ → ℕ → Option ℚ × Option ℚ
  | _, 0 => (none, none)
  | i, fuel + 1 =>
    if upFlipAt psar data i then (some (negIdxQ psar (i + 1)), some (negIdxQ psar i))
    else trendChangeScan psar data (i + 1) fuel

/-- `_get_trend_change_psars` (`for i in range(1, len(psar_data))`). -/
def getTrendChangePsars (psar : List ℚ) (data : List Bar) : Option ℚ × Option ℚ :=
  trendChangeScan psar data 1 (psar.length - 1)

/-- `_calculate_highest_high_since_change`: max high over `data[-n:]`. -/
def highestHighSinceChange (data : List Bar) (n : ℕ) : ℚ :=
  maxHighOf (lastNBars n data)

/-- `_calculate_lowest_low_since_change`: min low over `data[-n:]`. -/
def lowestLowSinceChange (data : List Bar) (n : ℕ) : ℚ :=
  minLowOf (lastNBars n data)

/-- `_get_weekly_candle`: the last bar closes the ISO week when it is a
Friday in a different ISO week from the bar before it. -/
def isWeeklyCandle (data : List Bar) : Bool :=
  if data.length < 2 then false
  else (lastBar data).weekday == 4 && (lastBar data).isoWeek != (prevBar data).isoWeek

/-- One executed order as read by `_check_entry_candle_validation`. -/
structure ExecOrder where
  isActive : Bool
  isDone : Bool
deriving DecidableEq, Repr

/-- `_check_entry_candle_validation`: with an open position whose latest
executed order is done, exit when the current candle's colour contradicts
the position or the MYM PSAR is not aligned with it. -/
def checkEntryCandleValidation (mes mym : List Bar) (psarMym : ℚ)
    (pos : List ℤ) (executed : List ExecOrder) : Bool :=
  pos.any (fun p =>
    p != 0 &&
    (match executed.getLast? with
     | some lastEx =>
       !lastEx.isActive && lastEx.isDone &&
       (if p > 0 then
          decide ((lastBar mes).close < (lastBar mes).open_) ||
          isPsarNegativeOn psarMym (lastBar mym)
        else
          decide ((lastBar mes).close > (lastBar mes).open_) ||
          isPsarPositiveOn psarMym (lastBar mym))
     | none => false))

/-- `psar_series[-1]` for a contract's data. -/
def psarLast (data : List Bar) : ℚ := lastQ (calculateParabolicSar data)

/-- `psar_series[-2] if len >= 2 else psar_series[-1]`. -/
def psarPrevOf (data : List Bar) : ℚ :=
  if 2 ≤ data.length then prevQ (calculateParabolicSar data) else psarLast data

/-- `trend_up = psar < close` for a contract. -/
def trendUpOf (data : List Bar) : Bool := decide (psarLast data < (lastBar data).close)

/-- `trend_down = psar > close`. -/
def trendDownOf (data : List Bar) : Bool := decide (psarLast data > (lastBar data).close)

/-- `flip_up = trend_up and not (psar_prev < close_prev)`. -/
def flipUpOf (data : List Bar) : Bool :=
  trendUpOf data && !(decide (psarPrevOf data < (prevBar data).close))

/-- `flip_down = trend_down and not (psar_prev > close_prev)`. -/
def flipDownOf (data : List Bar) : Bool :=
  trendDownOf data && !(decide (psarPrevOf data > (prevBar data).close))

/-- `bars_since_flip_mes`: candles since the most recent up / down change
within the 4-bar lookback, 999 when neither occurred. -/
def barsSinceFlip (data : List Bar) : ℕ :=
  let u := findRecentTrendChange (calculateParabolicSar data) data
  let d := findRecentDowntrendChange (calculateParabolicSar data) data
  if u.1 then u.2 else if d.1 then d.2 else 999

/-- `diff_mes = abs(prev_psar - first_psar) if (prev_psar and first_psar)
else 0` — Python truthiness makes this 0 whenever either value is `None`
*or equals 0.0*. -/
def diffMes (data : List Bar) : ℚ :=
  match getTrendChangePsars (calculateParabolicSar data) data with
  | (some p, some f) => if p ≠ 0 ∧ f ≠ 0 then |p - f| else 0
  | _ => 0

/-- `first_psar` from `_get_trend_change_psars` (0 where Python would carry
`None` into arithmetic and raise). -/
def firstPsarMes (data : List Bar) : ℚ :=
  ((getTrendChangePsars (calculateParabolicSar data) data).2).getD 0

/-- `max_high_since_flip` with the caller's bounds guard. -/
def maxHighSinceFlip (data : List Bar) : ℚ :=
  if barsSinceFlip data ≤ data.length then highestHighSinceChange data (barsSinceFlip data)
  else 0

/-- `min_low_since_flip` with the caller's bounds guard. -/
def minLowSinceFlip (data : List Bar) : ℚ :=
  if barsSinceFlip data ≤ data.length then lowestLowSinceChange data (barsSinceFlip data)
  else 0

/-- `buy_initial` (lib/strategy.py lines 183-185). -/
def buyInitial (mes mym : List Bar) (pos : List ℤ) : Bool :=
  flipUpOf mes && trendUpOf mym &&
  decide ((lastBar mes).close > (lastBar mes).open_) && !hasOpenPosition pos

/-- `sell_initial` (lines 187-193). -/
def sellInitial (mes mym : List Bar) (pos : List ℤ) : Bool :=
  flipDownOf mes && trendDownOf mym &&
  decide (calculateKijun mes ≥ calculateTenkan mes) &&
  decide ((lastBar mes).close < (lastBar mes).open_) && !hasOpenPosition pos

/-- `buy_reentry` (lines 204-211). -/
def buyReentry (mes mym : List Bar) (pos : List ℤ) : Bool :=
  decide (2 ≤ barsSinceFlip mes) && decide (barsSinceFlip mes ≤ 4) &&
  trendUpOf mes && trendUpOf mym &&
  decide (maxHighSinceFlip mes < firstPsarMes mes + 618/1000 * diffMes mes) &&
  decide ((lastBar mes).close > (lastBar mes).open_) && !hasOpenPosition pos

/-- `sell_reentry` (lines 213-221). -/
def sellReentry (mes mym : List Bar) (pos : List ℤ) : Bool :=
  decide (2 ≤ barsSinceFlip mes) && decide (barsSinceFlip mes ≤ 4) &&
  trendDownOf mes && trendDownOf mym &&
  decide (calculateKijun mes ≥ calculateTenkan mes) &&
  decide (minLowSinceFlip mes > firstPsarMes mes - 618/1000 * diffMes mes) &&
  decide ((lastBar mes).close < (lastBar mes).open_) && !hasOpenPosition pos

/-- Exit cluster (lines 227-258): PSAR trailing stop (LONG exits when
`psar >= close`, SHORT when `psar <= close`), the weekly Friday reversal,
and the entry-candle validation. -/
def exitSignalLib (mes mym : List Bar) (pos : List ℤ)
    (executed : List ExecOrder) : Bool :=
  (hasOpenPosition pos &&
    pos.any (fun p =>
      (decide (p > 0) && decide (psarLast mes ≥ (lastBar mes).close)) ||
      (decide (p < 0) && decide (psarLast mes ≤ (lastBar mes).close)))) ||
  (isWeeklyCandle mes && hasOpenPosition pos &&
    pos.any (fun p =>
      (decide (p > 0) && decide ((lastBar mes).close < (lastBar mes).open_)) ||
      (decide (p < 0) && decide ((lastBar mes).close > (lastBar mes).open_)))) ||
  checkEntryCandleValidation mes mym (psarLast mym) pos executed

/-- Contract sizing block (lines 268-283). -/
def qtyLib (mes mym : List Bar) (pos : List ℤ) : ℕ :=
  if buyInitial mes mym pos then 12
  else if sellInitial mes mym pos then 12
  else if buyReentry mes mym pos then
    (if (lastBar mes).close < firstPsarMes mes + 382/1000 * diffMes mes then 12 else 6)
  else if sellReentry mes mym pos then
    (if (lastBar mes).close > firstPsarMes mes - 382/1000 * diffMes mes then 12 else 6)
  else 0

/-- The attributes of `params` this `run` writes (indicator snapshots,
`psar_difference`, `number_of_contracts`). -/
structure LibState where
  psarMesInd : List ℚ
  psarMymInd : List ℚ
  tenkanInd : Option ℚ
  kijunInd : Option ℚ
  psarDifference : ℚ
  numberOfContracts : ℕ
deriving DecidableEq, Repr

/-- `IchimokuBase.run` of src/src/lib/strategy.py (lines 68-300): guard on
fewer than 22 bars of either contract, recompute indicators and flags, store
them on `params`, and resolve the decision tree
(LONG before SHORT before EXIT before STAY). -/
def libRun (mes mym : List Bar) (pos : List ℤ) (executed : List ExecOrder)
    (st : LibState) : Decision × LibState :=
  if mes.length < 22 ∨ mym.length < 22 then (Decision.stay, st)
  else
    let psarMesS := calculateParabolicSar mes
    let psarMymS := calculateParabolicSar mym
    if psarMesS.length = 0 ∨ psarMymS.length = 0 then (Decision.stay, st)
    else
      let st1 := { st with
        psarMesInd := psarMesS
        psarMymInd := psarMymS
        tenkanInd := some (calculateTenkan mes)
        kijunInd := some (calculateKijun mes)
        psarDifference := diffMes mes }
      let q := qtyLib mes mym pos
      let st2 := if q ≠ 0 then { st1 with numberOfContracts := q } else st1
      if buyInitial mes mym pos || buyReentry mes mym pos then (Decision.long, st2)
      else if sellInitial mes mym pos || sellReentry mes mym pos then (Decision.short, st2)
      else if exitSignalLib mes mym pos executed then (Decision.exit, st2)
      else (Decision.stay, st2)

/-! ### Order-plan construction (`create_orders`, lib/strategy.py lines
384-518; the quantity and price logic is identical in
`create_order` of src/src/components/strategy.py lines 249-394). -/

/-- Order side. -/
inductive Side where
  | buy
  | sell
deriving DecidableEq, Repr

/-- Order type. -/
inductive OrderKind where
  | limit
  | stop
deriving DecidableEq, Repr

/-- One leg of the bracket (`LimitOrder` / `StopOrder`). -/
structure OrderLeg where
  side : Side
  qty : ℕ
  price : ℚ
  kind : OrderKind
deriving DecidableEq, Repr

/-- The four-leg bracket returned as `[parent, stop_loss, tp1, tp2]`. -/
structure OrderPlan where
  parent : OrderLeg
  stopLoss : OrderLeg
  tp1 : OrderLeg
  tp2 : OrderLeg
deriving DecidableEq, Repr

/-- The `params` fields `create_orders` reads. -/
structure LibParams where
  psarMes : List ℚ
  lastCloseMes : ℚ
  psarDifference : ℚ
  numberOfContracts : ℕ
deriving DecidableEq, Repr

/-- `create_orders(action)`: entry and stop at the latest MES PSAR, TP
quantities split 6/rest (LONG) or 2/rest (SHORT), TP prices at 38.2% / 61.8%
of the stored PSAR difference, falling back to fixed percentage offsets when
the difference is not positive.  Only LONG and SHORT build a plan. -/
def createOrders (a : Decision) (p : LibParams) : Option OrderPlan :=
  let entry := match p.psarMes.getLast? with
    | some v => v
    | none => p.lastCloseMes
  let qty := p.numberOfContracts
  match a with
  | Decision.long =>
    let tp1Qty := if qty ≤ 12 then min 6 (qty / 2) else 6
    let tp2Qty := qty - tp1Qty
    let tp1Price := if p.psarDifference > 0 then entry + 382/1000 * p.psarDifference
      else entry * (1002/1000)
    let tp2Price := if p.psarDifference > 0 then entry + 618/1000 * p.psarDifference
      else entry * (1005/1000)
    some { parent := { side := Side.buy, qty := qty, price := entry, kind := OrderKind.limit }
           stopLoss := { side := Side.sell, qty := qty, price := entry, kind := OrderKind.stop }
           tp1 := { side := Side.sell, qty := tp1Qty, price := tp1Price, kind := OrderKind.limit }
           tp2 := { side := Side.sell, qty := tp2Qty, price := tp2Price, kind := OrderKind.limit } }
  | Decision.short =>
    let tp1Qty := if qty ≤ 4 then min 2 (qty / 2) else 2
    let tp2Qty := qty - tp1Qty
    let tp1Price := if p.psarDifference > 0 then entry - 382/1000 * p.psarDifference
      else entry * (998/1000)
    let tp2Price := if p.psarDifference > 0 then entry - 618/1000 * p.psarDifference
      else entry * (995/1000)
    some { parent := { side := Side.sell, qty := qty, price := entry, kind := OrderKind.limit }
           stopLoss := { side := Side.buy, qty := qty, price := entry, kind := OrderKind.stop }
           tp1 := { side := Side.buy, qty := tp1Qty, price := tp1Price, kind := OrderKind.limit }
           tp2 := { side := Side.buy, qty := tp2Qty, price := tp2Price, kind := OrderKind.limit } }
  | _ => none

/-! ## Supporting lemmas -/

lemma psarGo_amend (bs : List Bar) : ∀ bullish af ep sar pl ph,
    psarGo bullish af ep sar pl ph bs = psarAmendGo bullish af ep sar pl ph bs := by
  induction bs with
  | nil => intro _ _ _ _ _ _; rfl
  | cons b t ih =>
    intro bullish af ep sar pl ph
    cases bullish <;>
      simp only [psarGo, psarAmendGo, psarExtrapolate, psarAccel] <;>
      split <;> simp [ih]

lemma maxHighOf_max? (l : List Bar) (h : l ≠ []) :
    maxHighOf l = ((l.map Bar.high).max?).getD 0 := by
  cases l with
  | nil => exact absurd rfl h
  | cons b bs => simp [maxHighOf, List.max?, List.foldl_map]

lemma minLowOf_min? (l : List Bar) (h : l ≠ []) :
    minLowOf l = ((l.map Bar.low).min?).getD 0 := by
  cases l with
  | nil => exact absurd rfl h
  | cons b bs => simp [minLowOf, List.min?, List.foldl_map]

lemma lastNBars_length (k : ℕ) (data : List Bar) :
    (lastNBars k data).length = min k data.length ∨ k = 0 := by
  simp only [lastNBars, List.length_drop]
  omega

/-- A concrete bar builder for the closed instances below. -/
def mkBar (o h l c : ℚ) : Bar :=
  { open_ := o, high := h, low := l, close := c, weekday := 0, isoWeek := 0 }

/-! ## Claim C1 — the PSAR recurrence -/

/-- The two bars on which the code and the claimed recurrence disagree. -/
def c1Bars : List Bar := [mkBar 50 100 0 50, mkBar 50 100 1 50]

/-- C1 counterexample: on `c1Bars` the extrapolated SAR for bar 1 is 2; the
claimed order clamps it to `low[0] = 0` first, sees no flip (`0 ≤ low[1]`)
and yields 0, while the code tests the flip on the unclamped 2 (`2 > 1`),
flips and yields `ep = 100`. -/
theorem c1_counterexample :
    2 ≤ c1Bars.length ∧
    calculateParabolicSar c1Bars = [0, 100] ∧
    psarSpecClaim c1Bars = [0, 0] ∧
    calculateParabolicSar c1Bars ≠ psarSpecClaim c1Bars := by
  have h1 : calculateParabolicSar c1Bars = [0, 100] := by
    norm_num [calculateParabolicSar, psarGo, c1Bars, mkBar, startAf, incAf, maxAf]
  have h2 : psarSpecClaim c1Bars = [0, 0] := by
    norm_num [psarSpecClaim, psarClaimGo, c1Bars, mkBar, startAf, incAf, maxAf]
  refine ⟨by decide, h1, h2, ?_⟩
  rw [h1, h2]
  norm_num

/-- C1 (amended): `_calculate_parabolic_sar` computes exactly the claimed
recurrence with the flip test applied to the *unclamped* extrapolated value
and the `low[i-1]` clamp applied on the no-flip branch. -/
theorem c1_amended (bars : List Bar) :
    calculateParabolicSar bars = psarSpecAmended bars := by
  cases bars with
  | nil => rfl
  | cons b0 rest => simp [calculateParabolicSar, psarSpecAmended, psarGo_amend]

/-! ## Claim C2 — order-plan quantity reconciliation -/

/-- C2: every generated order plan satisfies
`TP1.qty + TP2.qty == Entry.qty` and `Stop.qty == Entry.qty`, for every
contract quantity. -/
theorem c2_plan_reconciliation (a : Decision) (p : LibParams) (pl : OrderPlan)
    (h : createOrders a p = some pl) :
    pl.tp1.qty + pl.tp2.qty = pl.parent.qty ∧ pl.stopLoss.qty = pl.parent.qty := by
  cases a <;> simp only [createOrders] at h
  case long =>
    injection h with h
    subst h
    refine ⟨?_, rfl⟩
    simp only [Nat.min_def]
    split <;> (try split) <;> omega
  case short =>
    injection h with h
    subst h
    refine ⟨?_, rfl⟩
    simp only [Nat.min_def]
    split <;> (try split) <;> omega
  all_goals exact absurd h (by simp)

/-- Demonstration parameters: an initial LONG entry of 12 contracts at PSAR
price 50 with a zero stored PSAR difference. -/
def pDemo : LibParams :=
  { psarMes := [50], lastCloseMes := 49, psarDifference := 0, numberOfContracts := 12 }

/-- The plan `create_orders('LONG')` builds from `pDemo`. -/
def planDemo : OrderPlan :=
  { parent := { side := Side.buy, qty := 12, price := 50, kind := OrderKind.limit }
    stopLoss := { side := Side.sell, qty := 12, price := 50, kind := OrderKind.stop }
    tp1 := { side := Side.sell, qty := 6, price := 50 * (1002/1000), kind := OrderKind.limit }
    tp2 := { side := Side.sell, qty := 6, price := 50 * (1005/1000), kind := OrderKind.limit } }

/-- C2 witness at a concrete 12-contract LONG plan. -/
theorem c2_witness :
    createOrders Decision.long pDemo = some planDemo ∧
    planDemo.tp1.qty + planDemo.tp2.qty = planDemo.parent.qty ∧
    planDemo.stopLoss.qty = planDemo.parent.qty := by
  have hco : createOrders Decision.long pDemo = some planDemo := by
    norm_num [createOrders, pDemo, planDemo]
  have h := c2_plan_reconciliation Decision.long pDemo planDemo hco
  exact ⟨hco, h.1, h.2⟩

/-! ## Claim C8 — short history recovers as STAY -/

/-- C8: with fewer than 21 bars of primary history a `run` call of the full
engine returns STAY and leaves the strategy state untouched (the guard in
the source rejects anything below 22 bars before any state write). -/
theorem c8_insufficient_data (mes mym : List Bar) (pos : List ℤ)
    (executed : List ExecOrder) (st : LibState) (h : mes.length < 21) :
    libRun mes mym pos executed st = (Decision.stay, st) := by
  unfold libRun
  rw [if_pos (Or.inl (by omega))]

/-- An arbitrary pre-call parameter state. -/
def libStDemo : LibState :=
  { psarMesInd := [3], psarMymInd := [4], tenkanInd := none, kijunInd := none,
    psarDifference := 7, numberOfContracts := 12 }

/-- C8 witness on an empty history. -/
theorem c8_witness :
    ([] : List Bar).length < 21 ∧
    libRun [] [] [] [] libStDemo = (Decision.stay, libStDemo) :=
  ⟨by decide, c8_insufficient_data [] [] [] [] libStDemo (by decide)⟩

/-! ## Claim C10 — Tenkan and Kijun -/

/-- C10: for nonempty data, Tenkan is the midpoint of the extreme high and
low of the last `min 5 length` bars (Kijun: `min 21 length`); the window is
the suffix of that length; a single bar yields its own high/low midpoint and
nothing is raised below the documented window sizes. -/
theorem c10_tenkan_kijun (data : List Bar) (hne : data ≠ []) :
    (calculateTenkan data =
       (1/2) * ((((lastNBars 5 data).map Bar.high).max?).getD 0 +
                (((lastNBars 5 data).map Bar.low).min?).getD 0) ∧
     calculateKijun data =
       (1/2) * ((((lastNBars 21 data).map Bar.high).max?).getD 0 +
                (((lastNBars 21 data).map Bar.low).min?).getD 0)) ∧
    (lastNBars 5 data <:+ data ∧ (lastNBars 5 data).length = min 5 data.length) ∧
    (lastNBars 21 data <:+ data ∧ (lastNBars 21 data).length = min 21 data.length) ∧
    (∀ b : Bar, calculateTenkan [b] = (1/2) * (b.high + b.low) ∧
      calculateKijun [b] = (1/2) * (b.high + b.low)) := by
  have hpos : 0 < data.length := List.length_pos.mpr hne
  have h5 : (lastNBars 5 data).length = min 5 data.length := by
    rcases lastNBars_length 5 data with h | h
    · exact h
    · omega
  have h21 : (lastNBars 21 data).length = min 21 data.length := by
    rcases lastNBars_length 21 data with h | h
    · exact h
    · omega
  have hne5 : lastNBars 5 data ≠ [] := by
    apply List.ne_nil_of_length_pos
    omega
  have hne21 : lastNBars 21 data ≠ [] := by
    apply List.ne_nil_of_length_pos
    omega
  refine ⟨⟨?_, ?_⟩, ⟨?_, h5⟩, ⟨?_, h21⟩, ?_⟩
  · rw [calculateTenkan, maxHighOf_max? _ hne5, minLowOf_min? _ hne5]
  · rw [calculateKijun, maxHighOf_max? _ hne21, minLowOf_min? _ hne21]
  · exact List.drop_suffix _ _
  · exact List.drop_suffix _ _
  · intro b
    constructor <;> simp [calculateTenkan, calculateKijun, lastNBars, maxHighOf, minLowOf]

/-- C10 witness on a single bar. -/
theorem c10_witness :
    [mkBar 1 8 2 5] ≠ ([] : List Bar) ∧
    calculateTenkan [mkBar 1 8 2 5] = (1/2) * ((8 : ℚ) + 2) :=
  ⟨by decide, by
    have h := (c10_tenkan_kijun [mkBar 1 8 2 5] (by decide)).2.2.2 (mkBar 1 8 2 5)
    simpa [mkBar] using h.1⟩

/-! ## Concrete bar histories used in the closed instances -/

/-- Five falling bars: the PSAR stays above the closes (bearish sign on the
last two bars, no flip at the end). -/
def c4Data : List Bar := [mkBar 95 100 90 95, mkBar 20 90 10 20, mkBar 70 80 60 70,
  mkBar 70 80 60 70, mkBar 70 80 60 70]

/-- The falling bars followed by a strong up bar: the sign flips bullish on
the final bar. -/
def c3Data : List Bar := c4Data ++ [mkBar 160 200 150 180]

/-- Five rising bars: the PSAR stays below the lows throughout. -/
def c5Data : List Bar := [mkBar 5 10 0 5, mkBar 15 20 10 15, mkBar 25 30 20 25,
  mkBar 35 40 30 35, mkBar 45 50 40 45]

/-! Single steps of the ichimoku PSAR recursion on the bars above (the tail
is kept abstract so each proof stays one unfolding). -/

lemma psarIchiStep1 (bs : List Bar) :
    psarIchiGo false startAf 90 100 90 100 none none (mkBar 20 90 10 20 :: bs) =
      100 :: psarIchiGo false (1/25) 10 100 10 90 (some 90) (some 100) bs := by
  norm_num [psarIchiGo, mkBar, startAf, incAf, maxAf, min_def, max_def]

lemma psarIchiStep2 (bs : List Bar) :
    psarIchiGo false (1/25) 10 100 10 90 (some 90) (some 100) (mkBar 70 80 60 70 :: bs) =
      100 :: psarIchiGo false (1/25) 10 100 60 80 (some 10) (some 90) bs := by
  norm_num [psarIchiGo, mkBar, startAf, incAf, maxAf, min_def, max_def]

lemma psarIchiStep3 (bs : List Bar) :
    psarIchiGo false (1/25) 10 100 60 80 (some 10) (some 90) (mkBar 70 80 60 70 :: bs) =
      482/5 :: psarIchiGo false (1/25) 10 (482/5) 60 80 (some 60) (some 80) bs := by
  norm_num [psarIchiGo, mkBar, startAf, incAf, maxAf, min_def, max_def]

lemma psarIchiStep4 (bs : List Bar) :
    psarIchiGo false (1/25) 10 (482/5) 60 80 (some 60) (some 80) (mkBar 70 80 60 70 :: bs) =
      11618/125 :: psarIchiGo false (1/25) 10 (11618/125) 60 80 (some 60) (some 80) bs := by
  norm_num [psarIchiGo, mkBar, startAf, incAf, maxAf, min_def, max_def]

lemma psarIchiStep5 (bs : List Bar) :
    psarIchiGo false (1/25) 10 (11618/125) 60 80 (some 60) (some 80)
      (mkBar 160 200 150 180 :: bs) =
      10 :: psarIchiGo true startAf 200 10 150 200 (some 60) (some 80) bs := by
  norm_num [psarIchiGo, mkBar, startAf, incAf, maxAf, min_def, max_def]

lemma psarIchiUp1 (bs : List Bar) :
    psarIchiGo true startAf 10 0 0 10 none none (mkBar 15 20 10 15 :: bs) =
      0 :: psarIchiGo true (1/25) 20 0 10 20 (some 0) (some 10) bs := by
  norm_num [psarIchiGo, mkBar, startAf, incAf, maxAf, min_def, max_def]

lemma psarIchiUp2 (bs : List Bar) :
    psarIchiGo true (1/25) 20 0 10 20 (some 0) (some 10) (mkBar 25 30 20 25 :: bs) =
      0 :: psarIchiGo true (3/50) 30 0 20 30 (some 10) (some 20) bs := by
  norm_num [psarIchiGo, mkBar, startAf, incAf, maxAf, min_def, max_def]

lemma psarIchiUp3 (bs : List Bar) :
    psarIchiGo true (3/50) 30 0 20 30 (some 10) (some 20) (mkBar 35 40 30 35 :: bs) =
      9/5 :: psarIchiGo true (2/25) 40 (9/5) 30 40 (some 20) (some 30) bs := by
  norm_num [psarIchiGo, mkBar, startAf, incAf, maxAf, min_def, max_def]

lemma psarIchiUp4 (bs : List Bar) :
    psarIchiGo true (2/25) 40 (9/5) 30 40 (some 20) (some 30) (mkBar 45 50 40 45 :: bs) =
      607/125 :: psarIchiGo true (1/10) 50 (607/125) 40 50 (some 30) (some 40) bs := by
  norm_num [psarIchiGo, mkBar, startAf, incAf, maxAf, min_def, max_def]

lemma c4_psar_eval : calculatePsarIchimoku c4Data = [100, 100, 100, 482/5, 11618/125] := by
  have h0 : calculatePsarIchimoku c4Data =
      100 :: psarIchiGo false startAf 90 100 90 100 none none
        [mkBar 20 90 10 20, mkBar 70 80 60 70, mkBar 70 80 60 70, mkBar 70 80 60 70] := by
    norm_num [calculatePsarIchimoku, c4Data, mkBar]
  rw [h0, psarIchiStep1, psarIchiStep2, psarIchiStep3, psarIchiStep4]
  rfl

lemma c3_psar_eval : calculatePsarIchimoku c3Data = [100, 100, 100, 482/5, 11618/125, 10] := by
  have h0 : calculatePsarIchimoku c3Data =
      100 :: psarIchiGo false startAf 90 100 90 100 none none
        [mkBar 20 90 10 20, mkBar 70 80 60 70, mkBar 70 80 60 70, mkBar 70 80 60 70,
         mkBar 160 200 150 180] := by
    norm_num [calculatePsarIchimoku, c3Data, c4Data, mkBar]
  rw [h0, psarIchiStep1, psarIchiStep2, psarIchiStep3, psarIchiStep4, psarIchiStep5]
  rfl

lemma c5_psar_eval : calculatePsarIchimoku c5Data = [0, 0, 0, 9/5, 607/125] := by
  have h0 : calculatePsarIchimoku c5Data =
      0 :: psarIchiGo true startAf 10 0 0 10 none none
        [mkBar 15 20 10 15, mkBar 25 30 20 25, mkBar 35 40 30 35, mkBar 45 50 40 45] := by
    norm_num [calculatePsarIchimoku, c5Data, mkBar]
  rw [h0, psarIchiUp1, psarIchiUp2, psarIchiUp3, psarIchiUp4]
  rfl

lemma c4_lastBar_eval : lastBar c4Data = mkBar 70 80 60 70 := by simp [lastBar, c4Data]

lemma c3_lastBar_eval : lastBar c3Data = mkBar 160 200 150 180 := by
  simp [lastBar, c3Data, c4Data]

lemma c5_lastBar_eval : lastBar c5Data = mkBar 45 50 40 45 := by simp [lastBar, c5Data]

lemma c4_latestPsar_eval : latestPsarI c4Data = 11618/125 := by
  simp [latestPsarI, c4_psar_eval, lastQ]

lemma c3_latestPsar_eval : latestPsarI c3Data = 10 := by
  simp [latestPsarI, c3_psar_eval, lastQ]

lemma c3_prevPsar_eval : prevPsarI c3Data = 11618/125 := by
  simp [prevPsarI, c3_psar_eval, prevQ]

lemma c5_latestPsar_eval : latestPsarI c5Data = 607/125 := by
  simp [latestPsarI, c5_psar_eval, lastQ]

lemma c4_signs_eval : latestSignI c4Data = 1 ∧ prevSignI c4Data = 1 := by
  have hpp : prevPsarI c4Data = 482/5 := by simp [prevPsarI, c4_psar_eval, prevQ]
  have hpb : prevBar c4Data = mkBar 70 80 60 70 := by simp [prevBar, c4Data]
  constructor
  · norm_num [latestSignI, c4_latestPsar_eval, c4_lastBar_eval, mkBar]
  · norm_num [prevSignI, hpp, hpb, mkBar]

lemma c3_signs_eval : latestSignI c3Data = -1 ∧ prevSignI c3Data = 1 := by
  have hpb : prevBar c3Data = mkBar 70 80 60 70 := by simp [prevBar, c3Data, c4Data]
  constructor
  · norm_num [latestSignI, c3_latestPsar_eval, c3_lastBar_eval, mkBar]
  · norm_num [prevSignI, c3_prevPsar_eval, hpb, mkBar]

lemma c5_signs_eval : latestSignI c5Data = -1 ∧ prevSignI c5Data = -1 := by
  have hpp : prevPsarI c5Data = 9/5 := by simp [prevPsarI, c5_psar_eval, prevQ]
  have hpb : prevBar c5Data = mkBar 35 40 30 35 := by simp [prevBar, c5Data]
  constructor
  · norm_num [latestSignI, c5_latestPsar_eval, c5_lastBar_eval, mkBar]
  · norm_num [prevSignI, hpp, hpb, mkBar]

lemma positionDirection_hasOpen (pos : List ℤ) (d : Dir)
    (h : positionDirection pos = some d) : hasOpenPosition pos = true := by
  unfold positionDirection at h
  cases hf : pos.find? (fun p => p != 0) with
  | none => rw [hf] at h; exact absurd h (by simp)
  | some p =>
    have hmem := List.mem_of_find?_eq_some hf
    have hp := List.find?_some hf
    exact List.any_eq_true.mpr ⟨p, hmem, hp⟩

/-! ## Claim C4 — PSAR stop-out priority -/

/-- C4 (amended): once a trend direction has been established by the tracker
(and the 5-bar data guard is passed), a bar whose close has crossed back
through the current PSAR against an open position yields EXIT, and the
stop-out is decided before the take-profit, entry and add-on rules (the
conclusion holds whatever the take-profit levels and flags are).  The code
triggers on the bar's low (high, for a short) reaching the PSAR, which the
crossed close implies for well-formed bars. -/
theorem c4_amended (data : List Bar) (pos : List ℤ) (st : IchimokuState)
    (hlen : 5 ≤ data.length)
    (htrend : (updateState st data).trendDirection.isSome = true) :
    (positionDirection pos = some Dir.long →
      (lastBar data).low ≤ (lastBar data).close →
      (lastBar data).close ≤ latestPsarI data →
      (ichimokuRun data pos st).1 = Decision.exit) ∧
    (positionDirection pos = some Dir.short →
      (lastBar data).close ≤ (lastBar data).high →
      latestPsarI data ≤ (lastBar data).close →
      (ichimokuRun data pos st).1 = Decision.exit) := by
  have hnl : ¬ data.length < 5 := by omega
  have hrun : ichimokuRun data pos st = decideRules data pos (updateState st data) := by
    rw [ichimokuRun, if_neg hnl]
  constructor
  · intro hpd hwf hcross
    have hp := positionDirection_hasOpen pos Dir.long hpd
    have hle : (lastBar data).low ≤ latestPsarI data := le_trans hwf hcross
    have hso : stopOutCheck data pos (updateState st data) = some Decision.exit := by
      simp [stopOutCheck, hp, htrend, hpd, hle]
    rw [hrun]
    simp [decideRules, hso]
  · intro hpd hwf hcross
    have hp := positionDirection_hasOpen pos Dir.short hpd
    have hle : latestPsarI data ≤ (lastBar data).high := le_trans hcross hwf
    have hso : stopOutCheck data pos (updateState st data) = some Decision.exit := by
      simp [stopOutCheck, hp, htrend, hpd, hle]
    rw [hrun]
    simp [decideRules, hso]

/-- C4 counterexample: on `c4Data` with an open long position but a tracker
that has not yet observed any flip (`trend_direction is None`), the close
(70) has crossed below the PSAR (11618/125 = 92.944) and yet the decision is
STAY, not Exit. -/
theorem c4_counterexample :
    5 ≤ c4Data.length ∧
    hasOpenPosition [12] = true ∧
    (lastBar c4Data).close ≤ latestPsarI c4Data ∧
    initIchimokuState.trendDirection = none ∧
    (ichimokuRun c4Data [12] initIchimokuState).1 = Decision.stay := by
  have hupd : updateState initIchimokuState c4Data = initIchimokuState := by
    simp [updateState, c4_signs_eval.1, c4_signs_eval.2, initIchimokuState]
  have hso : stopOutCheck c4Data [12] initIchimokuState = none := by
    simp [stopOutCheck, initIchimokuState]
  have htp : tpCheck c4Data [12] initIchimokuState = none := by
    simp [tpCheck, initIchimokuState]
  have hen : entryCheck c4Data [12] = none := by
    simp [entryCheck, hasOpenPosition]
  have had : addOnCheck c4Data [12] initIchimokuState = none := by
    simp [addOnCheck, initIchimokuState]
  refine ⟨by decide, by decide, ?_, rfl, ?_⟩
  · norm_num [c4_lastBar_eval, c4_latestPsar_eval, mkBar]
  · rw [ichimokuRun, if_neg (by decide), hupd]
    simp [decideRules, hso, htp, hen, had]

/-- A tracker state that has already established a long trend. -/
def c4WitState : IchimokuState := { initIchimokuState with trendDirection := some Dir.long }

/-- C4 witness: with the trend established, the same crossed bar exits. -/
theorem c4_witness :
    5 ≤ c4Data.length ∧
    positionDirection [12] = some Dir.long ∧
    (lastBar c4Data).close ≤ latestPsarI c4Data ∧
    (ichimokuRun c4Data [12] c4WitState).1 = Decision.exit := by
  have htrend : (updateState c4WitState c4Data).trendDirection.isSome = true := by
    simp [updateState, c4_signs_eval.1, c4_signs_eval.2, c4WitState, initIchimokuState]
  have hcross : (lastBar c4Data).close ≤ latestPsarI c4Data := by
    norm_num [c4_lastBar_eval, c4_latestPsar_eval, mkBar]
  have hwf : (lastBar c4Data).low ≤ (lastBar c4Data).close := by
    norm_num [c4_lastBar_eval, mkBar]
  exact ⟨by decide, by decide, hcross,
    (c4_amended c4Data [12] c4WitState (by decide) htrend).1 (by decide) hwf hcross⟩

/-! ## Claim C3 — take-profit levels and the zero-jump fallback -/

/-- C3 (amended): in the order builder the take-profit prices are exactly
`entry ± 0.382·jump` / `entry ± 0.618·jump`, with the exact fallbacks
`entry·1.002` / `entry·1.005` (LONG) and `entry·0.998` / `entry·0.995`
(SHORT) when the stored jump is zero; the ichimoku_base engine's internal
ladder, however, anchors at the pre-flip PSAR with `+0.382·jump` for TP1 but
`+0.5·jump` — not `0.618` — for TP2 (shown for a flip to long). -/
theorem c3_amended :
    (∀ (p : LibParams) (pl : OrderPlan), createOrders Decision.long p = some pl →
      (0 < p.psarDifference →
        pl.tp1.price = pl.parent.price + 382/1000 * p.psarDifference ∧
        pl.tp2.price = pl.parent.price + 618/1000 * p.psarDifference) ∧
      (p.psarDifference = 0 →
        pl.tp1.price = pl.parent.price * (1002/1000) ∧
        pl.tp2.price = pl.parent.price * (1005/1000))) ∧
    (∀ (p : LibParams) (pl : OrderPlan), createOrders Decision.short p = some pl →
      (0 < p.psarDifference →
        pl.tp1.price = pl.parent.price - 382/1000 * p.psarDifference ∧
        pl.tp2.price = pl.parent.price - 618/1000 * p.psarDifference) ∧
      (p.psarDifference = 0 →
        pl.tp1.price = pl.parent.price * (998/1000) ∧
        pl.tp2.price = pl.parent.price * (995/1000))) ∧
    (∀ (data : List Bar) (st : IchimokuState),
      prevSignI data = 1 → latestSignI data = -1 →
      (updateState st data).tp1Level =
        some (prevPsarI data + 382/1000 * |prevPsarI data - latestPsarI data|) ∧
      (updateState st data).tp2Level =
        some (prevPsarI data + 1/2 * |prevPsarI data - latestPsarI data|)) := by
  refine ⟨?_, ?_, ?_⟩
  · intro p pl h
    simp only [createOrders] at h
    injection h with h
    subst h
    constructor
    · intro hd
      constructor <;> simp [hd]
    · intro hd
      constructor <;> simp [hd]
  · intro p pl h
    simp only [createOrders] at h
    injection h with h
    subst h
    constructor
    · intro hd
      constructor <;> simp [hd]
    · intro hd
      constructor <;> simp [hd]
  · intro data st hps hls
    simp [updateState, hps, hls]

/-- The post-flip tracker state on `c3Data`. -/
def c3StateAfter : IchimokuState :=
  { trendDirection := some Dir.long, candleCount := 1,
    lastPrevPsar := some (11618/125), firstPsar := some 10,
    diff := some (10368/125), maxHighSinceStart := some 200,
    minLowSinceStart := some 150, tp1Level := some (1947322/15625),
    tp2Level := some (16802/125), tp1Hit := false }

lemma c3_update_eval : updateState initIchimokuState c3Data = c3StateAfter := by
  norm_num [updateState, c3_signs_eval.1, c3_signs_eval.2, c3_latestPsar_eval,
    c3_prevPsar_eval, c3_lastBar_eval, mkBar, c3StateAfter, abs_of_nonneg]

/-- C3 counterexample: on the flip bar of `c3Data` the engine enters LONG
with the entry anchored at `last_prev_psar = 92.944` and `jump = 82.944`,
and sets `tp2_level = 92.944 + 0.5·82.944 = 134.416`, which differs from the
claimed `entry + 0.618·jump = 144.203392`. -/
theorem c3_counterexample :
    (ichimokuRun c3Data [] initIchimokuState).1 = Decision.long ∧
    (ichimokuRun c3Data [] initIchimokuState).2.lastPrevPsar = some (11618/125) ∧
    (ichimokuRun c3Data [] initIchimokuState).2.diff = some (10368/125) ∧
    (ichimokuRun c3Data [] initIchimokuState).2.tp2Level = some (16802/125) ∧
    ¬ (16802/125 : ℚ) = 11618/125 + 618/1000 * (10368/125) := by
  have hso : stopOutCheck c3Data [] c3StateAfter = none := by
    simp [stopOutCheck, hasOpenPosition]
  have htp : tpCheck c3Data [] c3StateAfter = none := by
    simp [tpCheck, hasOpenPosition]
  have hen : entryCheck c3Data [] = some Decision.long := by
    simp [entryCheck, hasOpenPosition, c3_signs_eval.1, c3_signs_eval.2]
  have hrun : ichimokuRun c3Data [] initIchimokuState = (Decision.long, c3StateAfter) := by
    rw [ichimokuRun, if_neg (by decide), c3_update_eval]
    simp [decideRules, hso, htp, hen]
  rw [hrun]
  exact ⟨rfl, rfl, rfl, rfl, by norm_num⟩

/-- C3 witness: the fallback prices at a zero stored difference, and the
flip-bar ladder levels on `c3Data`, via the amended theorem. -/
theorem c3_witness :
    createOrders Decision.long pDemo = some planDemo ∧
    pDemo.psarDifference = 0 ∧
    planDemo.tp1.price = planDemo.parent.price * (1002/1000) ∧
    planDemo.tp2.price = planDemo.parent.price * (1005/1000) ∧
    prevSignI c3Data = 1 ∧ latestSignI c3Data = -1 ∧
    (updateState initIchimokuState c3Data).tp1Level =
      some (prevPsarI c3Data + 382/1000 * |prevPsarI c3Data - latestPsarI c3Data|) := by
  have hco : createOrders Decision.long pDemo = some planDemo := by
    norm_num [createOrders, pDemo, planDemo]
  have h1 := (c3_amended.1 pDemo planDemo hco).2 (by norm_num [pDemo])
  have h3 := (c3_amended.2.2 c3Data initIchimokuState c3_signs_eval.2 c3_signs_eval.1).1
  exact ⟨hco, by norm_num [pDemo], h1.1, h1.2, c3_signs_eval.2, c3_signs_eval.1, h3⟩

/-! ## Claim C5 — take-profit ladder -/

/-- C5 (amended): after the stop-out rule has declined, the ladder behaves
as claimed in both directions — TP2 reached exits, then an untriggered TP1
reached by the bar's extreme yields a partial exit that sets `tp1_hit`, then
a close back through TP1 after it was hit exits — except that the partial
exit is a **fixed 6 contracts** (the source returns the literal
`PARTIAL_EXIT_6`), not half of the current open quantity. -/
theorem c5_amended (data : List Bar) (pos : List ℤ) (st : IchimokuState) (t1 t2 : ℚ)
    (hlen : 5 ≤ data.length)
    (hso : stopOutCheck data pos (updateState st data) = none)
    (h1 : (updateState st data).tp1Level = some t1)
    (h2 : (updateState st data).tp2Level = some t2) :
    (positionDirection pos = some Dir.long →
      (t2 ≤ (lastBar data).high → (ichimokuRun data pos st).1 = Decision.exit) ∧
      ((lastBar data).high < t2 → (updateState st data).tp1Hit = false →
        t1 ≤ (lastBar data).high →
        ichimokuRun data pos st =
          (Decision.partExit 6, { updateState st data with tp1Hit := true })) ∧
      ((lastBar data).high < t2 → (updateState st data).tp1Hit = true →
        (lastBar data).close < t1 → (ichimokuRun data pos st).1 = Decision.exit)) ∧
    (positionDirection pos = some Dir.short →
      ((lastBar data).low ≤ t2 → (ichimokuRun data pos st).1 = Decision.exit) ∧
      (t2 < (lastBar data).low → (updateState st data).tp1Hit = false →
        (lastBar data).low ≤ t1 →
        ichimokuRun data pos st =
          (Decision.partExit 6, { updateState st data with tp1Hit := true })) ∧
      (t2 < (lastBar data).low → (updateState st data).tp1Hit = true →
        t1 < (lastBar data).close → (ichimokuRun data pos st).1 = Decision.exit)) := by
  have hnl : ¬ data.length < 5 := by omega
  have hrun : ichimokuRun data pos st = decideRules data pos (updateState st data) := by
    rw [ichimokuRun, if_neg hnl]
  constructor
  · intro hpd
    have hp := positionDirection_hasOpen pos Dir.long hpd
    refine ⟨?_, ?_, ?_⟩
    · intro ht2
      have htp : tpCheck data pos (updateState st data) =
          some (Decision.exit, updateState st data) := by
        simp [tpCheck, hp, h1, h2, hpd, ht2]
      rw [hrun]
      simp [decideRules, hso, htp]
    · intro hlt2 hhit ht1
      have hn2 : ¬ t2 ≤ (lastBar data).high := not_le.mpr hlt2
      have htp : tpCheck data pos (updateState st data) =
          some (Decision.partExit 6, { updateState st data with tp1Hit := true }) := by
        simp [tpCheck, hp, h1, h2, hpd, hn2, hhit, ht1]
      rw [hrun]
      simp [decideRules, hso, htp]
    · intro hlt2 hhit hcl
      have hn2 : ¬ t2 ≤ (lastBar data).high := not_le.mpr hlt2
      have htp : tpCheck data pos (updateState st data) =
          some (Decision.exit, updateState st data) := by
        simp [tpCheck, hp, h1, h2, hpd, hn2, hhit, hcl]
      rw [hrun]
      simp [decideRules, hso, htp]
  · intro hpd
    have hp := positionDirection_hasOpen pos Dir.short hpd
    refine ⟨?_, ?_, ?_⟩
    · intro ht2
      have htp : tpCheck data pos (updateState st data) =
          some (Decision.exit, updateState st data) := by
        simp [tpCheck, hp, h1, h2, hpd, ht2]
      rw [hrun]
      simp [decideRules, hso, htp]
    · intro hlt2 hhit ht1
      have hn2 : ¬ (lastBar data).low ≤ t2 := not_le.mpr hlt2
      have htp : tpCheck data pos (updateState st data) =
          some (Decision.partExit 6, { updateState st data with tp1Hit := true }) := by
        simp [tpCheck, hp, h1, h2, hpd, hn2, hhit, ht1]
      rw [hrun]
      simp [decideRules, hso, htp]
    · intro hlt2 hhit hcl
      have hn2 : ¬ (lastBar data).low ≤ t2 := not_le.mpr hlt2
      have htp : tpCheck data pos (updateState st data) =
          some (Decision.exit, updateState st data) := by
        simp [tpCheck, hp, h1, h2, hpd, hn2, hhit, hcl]
      rw [hrun]
      simp [decideRules, hso, htp]

/-- A tracker state in a long trend with TP levels 10 / 100 pending. -/
def c5State : IchimokuState :=
  { trendDirection := some Dir.long, candleCount := 1, lastPrevPsar := some 5,
    firstPsar := some 6, diff := some 1, maxHighSinceStart := some 45,
    minLowSinceStart := some 1, tp1Level := some 10, tp2Level := some 100,
    tp1Hit := false }

/-- `c5State` after the no-flip update on the last bar of `c5Data`. -/
def c5StateAfter : IchimokuState :=
  { trendDirection := some Dir.long, candleCount := 2, lastPrevPsar := some 5,
    firstPsar := some 6, diff := some 1, maxHighSinceStart := some 50,
    minLowSinceStart := some 1, tp1Level := some 10, tp2Level := some 100,
    tp1Hit := false }

lemma c5_update_eval : updateState c5State c5Data = c5StateAfter := by
  norm_num [updateState, c5_signs_eval.1, c5_signs_eval.2, c5State, c5StateAfter,
    c5_lastBar_eval, mkBar, max_def, min_def]

lemma c5_stopout_eval : stopOutCheck c5Data [12, 12] c5StateAfter = none := by
  norm_num [stopOutCheck, c5StateAfter, c5_latestPsar_eval, c5_lastBar_eval, mkBar,
    positionDirection, hasOpenPosition]

/-- C5 counterexample: TP1 fires on `c5Data` with 24 contracts open
(two 12-lot positions), yet the emitted action is `PARTIAL_EXIT_6` —
6 contracts, not half of the open 24. -/
theorem c5_counterexample :
    hasOpenPosition [12, 12] = true ∧
    (ichimokuRun c5Data [12, 12] c5State).1 = Decision.partExit 6 ∧
    (6 : ℕ) ≠ (12 + 12) / 2 := by
  have htp : tpCheck c5Data [12, 12] c5StateAfter =
      some (Decision.partExit 6, { c5StateAfter with tp1Hit := true }) := by
    norm_num [tpCheck, c5StateAfter, c5_lastBar_eval, mkBar, positionDirection,
      hasOpenPosition]
  refine ⟨by decide, ?_, by decide⟩
  rw [ichimokuRun, if_neg (by decide), c5_update_eval]
  simp [decideRules, c5_stopout_eval, htp]

/-- C5 witness: the amended partial-exit branch applied on `c5Data`. -/
theorem c5_witness :
    positionDirection [12, 12] = some Dir.long ∧
    (updateState c5State c5Data).tp1Level = some 10 ∧
    (updateState c5State c5Data).tp2Level = some 100 ∧
    (updateState c5State c5Data).tp1Hit = false ∧
    (10 : ℚ) ≤ (lastBar c5Data).high ∧ (lastBar c5Data).high < 100 ∧
    ichimokuRun c5Data [12, 12] c5State =
      (Decision.partExit 6, { updateState c5State c5Data with tp1Hit := true }) := by
  have hso : stopOutCheck c5Data [12, 12] (updateState c5State c5Data) = none := by
    rw [c5_update_eval]; exact c5_stopout_eval
  have h1 : (updateState c5State c5Data).tp1Level = some 10 := by
    rw [c5_update_eval]; rfl
  have h2 : (updateState c5State c5Data).tp2Level = some 100 := by
    rw [c5_update_eval]; rfl
  have hhit : (updateState c5State c5Data).tp1Hit = false := by
    rw [c5_update_eval]; rfl
  have ht1 : (10 : ℚ) ≤ (lastBar c5Data).high := by
    norm_num [c5_lastBar_eval, mkBar]
  have hlt2 : (lastBar c5Data).high < 100 := by
    norm_num [c5_lastBar_eval, mkBar]
  have happ := ((c5_amended c5Data [12, 12] c5State 10 100 (by decide) hso h1 h2).1
    (by decide)).2.1 hlt2 hhit ht1
  exact ⟨by decide, h1, h2, hhit, ht1, hlt2, happ⟩

/-! ## Claim C6 — re-entry / add-on rule -/

lemma psarGo_length (bs : List Bar) : ∀ bullish af ep sar pl ph,
    (psarGo bullish af ep sar pl ph bs).length = bs.length := by
  induction bs with
  | nil => intro _ _ _ _ _ _; rfl
  | cons b t ih =>
    intro bullish af ep sar pl ph
    cases bullish <;> simp [psarGo, ih, apply_ite List.length]

lemma calculateParabolicSar_length (l : List Bar) :
    (calculateParabolicSar l).length = l.length := by
  cases l with
  | nil => rfl
  | cons b t => simp [calculateParabolicSar, psarGo_length]

lemma stopOutCheck_isExit (data : List Bar) (pos : List ℤ) (s : IchimokuState)
    (a : Decision) (h : stopOutCheck data pos s = some a) : a = Decision.exit := by
  unfold stopOutCheck at h
  split at h
  · split at h <;> first
      | (split at h
         · injection h with h
           exact h.symm
         · exact absurd h (by simp))
      | exact absurd h (by simp)
  · exact absurd h (by simp)

lemma tpCheck_isExitOrPartial (data : List Bar) (pos : List ℤ) (s : IchimokuState)
    (r : Decision × IchimokuState) (h : tpCheck data pos s = some r) :
    r.1 = Decision.exit ∨ r.1 = Decision.partExit 6 := by
  unfold tpCheck at h
  split at h
  · split at h
    · split at h <;> (try split at h) <;> (try split at h) <;> (try split at h) <;>
        first
          | (injection h with h
             rw [← h]
             simp)
          | exact absurd h (by simp)
    · exact absurd h (by simp)
  · exact absurd h (by simp)

lemma entryCheck_isEntry (data : List Bar) (pos : List ℤ) (a : Decision)
    (h : entryCheck data pos = some a) : a = Decision.long ∨ a = Decision.short := by
  unfold entryCheck at h
  split at h
  · split at h
    · injection h with h
      rw [← h]
      simp
    · split at h
      · injection h with h
        rw [← h]
        simp
      · exact absurd h (by simp)
  · exact absurd h (by simp)

lemma addOnCheck_hasOpen (data : List Bar) (pos : List ℤ) (s : IchimokuState)
    (a : Decision) (h : addOnCheck data pos s = some a) : hasOpenPosition pos = true := by
  unfold addOnCheck at h
  split at h
  · next hc =>
    simp only [Bool.and_eq_true] at hc
    exact hc.1
  · exact absurd h (by simp)

/-- C6 (amended): in the full lib/strategy engine the re-entry rule fires
only when the position is Flat with `2 <= bars_since_flip <= 4`, and when it
does (with the initial-entry flags down) the engine goes long with quantity
12 when the close is still below the 38.2% level and 6 otherwise; the
ichimoku_base add-on variant, by contrast, can emit an add-on only when a
position is already open — never when Flat. -/
theorem c6_amended :
    (∀ (mes mym : List Bar) (pos : List ℤ), buyReentry mes mym pos = true →
      hasOpenPosition pos = false ∧ 2 ≤ barsSinceFlip mes ∧ barsSinceFlip mes ≤ 4) ∧
    (∀ (mes mym : List Bar) (pos : List ℤ), sellReentry mes mym pos = true →
      hasOpenPosition pos = false ∧ 2 ≤ barsSinceFlip mes ∧ barsSinceFlip mes ≤ 4) ∧
    (∀ (mes mym : List Bar) (pos : List ℤ) (executed : List ExecOrder) (st : LibState),
      22 ≤ mes.length → 22 ≤ mym.length →
      buyInitial mes mym pos = false → sellInitial mes mym pos = false →
      buyReentry mes mym pos = true →
      (libRun mes mym pos executed st).1 = Decision.long ∧
      (libRun mes mym pos executed st).2.numberOfContracts =
        (if (lastBar mes).close < firstPsarMes mes + 382/1000 * diffMes mes
         then 12 else 6)) ∧
    (∀ (data : List Bar) (pos : List ℤ) (st : IchimokuState) (q : ℕ),
      ((ichimokuRun data pos st).1 = Decision.addLong q ∨
       (ichimokuRun data pos st).1 = Decision.addShort q) →
      hasOpenPosition pos = true) := by
  refine ⟨?_, ?_, ?_, ?_⟩
  · intro mes mym pos h
    simp only [buyReentry, Bool.and_eq_true, decide_eq_true_eq, Bool.not_eq_true'] at h
    exact ⟨h.2, h.1.1.1.1.1.1, h.1.1.1.1.1.2⟩
  · intro mes mym pos h
    simp only [sellReentry, Bool.and_eq_true, decide_eq_true_eq, Bool.not_eq_true'] at h
    exact ⟨h.2, h.1.1.1.1.1.1.1, h.1.1.1.1.1.1.2⟩
  · intro mes mym pos ex st h1 h2 hbi hsi hbr
    have hA : ¬ (mes.length < 22 ∨ mym.length < 22) := by omega
    have hB : ¬ (calculateParabolicSar mes = [] ∨ calculateParabolicSar mym = []) := by
      rintro (hc | hc) <;>
        [have := calculateParabolicSar_length mes; have := calculateParabolicSar_length mym] <;>
        rw [hc] at this <;> simp at this <;> omega
    have hq : qtyLib mes mym pos =
        (if (lastBar mes).close < firstPsarMes mes + 382/1000 * diffMes mes
         then 12 else 6) := by
      simp [qtyLib, hbi, hsi, hbr]
    constructor
    · simp [libRun, hA, hB, hbi, hbr]
    · simp only [libRun, hA, hB, if_false, hbi, hbr, hsi, hq]
      split_ifs <;> simp_all
  · intro data pos st q h
    by_cases hl : data.length < 5
    · rw [ichimokuRun, if_pos hl] at h
      rcases h with h | h <;> exact absurd h (by simp)
    · rw [ichimokuRun, if_neg hl] at h
      unfold decideRules at h
      cases hso : stopOutCheck data pos (updateState st data) with
      | some a =>
        rw [hso] at h
        have ha := stopOutCheck_isExit _ _ _ _ hso
        subst ha
        rcases h with h | h <;> exact absurd h (by simp)
      | none =>
        rw [hso] at h
        cases htp : tpCheck data pos (updateState st data) with
        | some r =>
          rw [htp] at h
          have ha := tpCheck_isExitOrPartial _ _ _ _ htp
          simp only [] at h
          rcases ha with ha | ha <;> rw [ha] at h <;>
            rcases h with h | h <;> exact absurd h (by simp)
        | none =>
          rw [htp] at h
          cases hen : entryCheck data pos with
          | some a =>
            rw [hen] at h
            have ha := entryCheck_isEntry _ _ _ hen
            rcases ha with ha | ha <;> subst ha <;>
              rcases h with h | h <;> exact absurd h (by simp)
          | none =>
            rw [hen] at h
            cases hao : addOnCheck data pos (updateState st data) with
            | some a => exact addOnCheck_hasOpen _ _ _ _ hao
            | none =>
              rw [hao] at h
              rcases h with h | h <;> exact absurd h (by simp)

/-- A tracker state in a long trend, one candle after the flip, with the
jump anchored at 30 and no TP levels yet. -/
def c6State : IchimokuState :=
  { trendDirection := some Dir.long, candleCount := 1, lastPrevPsar := some 30,
    firstPsar := some 31, diff := some 1000, maxHighSinceStart := some 45,
    minLowSinceStart := some 1, tp1Level := none, tp2Level := none,
    tp1Hit := false }

/-- `c6State` after the no-flip update on the last bar of `c5Data`. -/
def c6StateAfter : IchimokuState :=
  { trendDirection := some Dir.long, candleCount := 2, lastPrevPsar := some 30,
    firstPsar := some 31, diff := some 1000, maxHighSinceStart := some 50,
    minLowSinceStart := some 1, tp1Level := none, tp2Level := none,
    tp1Hit := false }

lemma c6_update_eval : updateState c6State c5Data = c6StateAfter := by
  norm_num [updateState, c5_signs_eval.1, c5_signs_eval.2, c6State, c6StateAfter,
    c5_lastBar_eval, mkBar, max_def, min_def]

/-- C6 counterexample: the ichimoku_base add-on emits `ADD_LONG_12` on
`c5Data` with a position of 12 contracts already open — the rule fires with
a non-Flat position, contradicting the claimed Flat-only firing. -/
theorem c6_counterexample :
    hasOpenPosition [12] = true ∧
    (ichimokuRun c5Data [12] c6State).1 = Decision.addLong 12 := by
  have hso : stopOutCheck c5Data [12] c6StateAfter = none := by
    norm_num [stopOutCheck, c6StateAfter, c5_latestPsar_eval, c5_lastBar_eval, mkBar,
      positionDirection, hasOpenPosition]
  have htp : tpCheck c5Data [12] c6StateAfter = none := by
    simp [tpCheck, c6StateAfter]
  have hen : entryCheck c5Data [12] = none := by
    simp [entryCheck, hasOpenPosition]
  have hao : addOnCheck c5Data [12] c6StateAfter = some (Decision.addLong 12) := by
    norm_num [addOnCheck, c6StateAfter, c5_lastBar_eval, mkBar, positionDirection,
      hasOpenPosition]
  refine ⟨by decide, ?_⟩
  rw [ichimokuRun, if_neg (by decide), c6_update_eval]
  simp [decideRules, hso, htp, hen, hao]

def cycleBarMes : Bar := mkBar 5 10 2 7

def cycleBarMym : Bar := mkBar 5 10 2 15

/-- MES witness data for the re-entry rule: seventeen alternating-flip cycle
bars to age the series past the 22-bar guard, then a bear flip, a bull flip,
a bear flip and one quiet rising bar, leaving the up-flip three bars back. -/
def c6Mes : List Bar :=
  [cycleBarMes, cycleBarMes, cycleBarMes, cycleBarMes, cycleBarMes, cycleBarMes,
   cycleBarMes, cycleBarMes, cycleBarMes, cycleBarMes, cycleBarMes, cycleBarMes,
   cycleBarMes, cycleBarMes, cycleBarMes, cycleBarMes, cycleBarMes, cycleBarMes,
   mkBar 10 12 6 11, mkBar 3 4 1 2, mkBar 11 13 9 12, mkBar 10 12 9 11]

/-- MYM witness data: cycle bars whose close 15 stays above the PSAR. -/
def c6Mym : List Bar :=
  [cycleBarMym, cycleBarMym, cycleBarMym, cycleBarMym, cycleBarMym, cycleBarMym,
   cycleBarMym, cycleBarMym, cycleBarMym, cycleBarMym, cycleBarMym, cycleBarMym,
   cycleBarMym, cycleBarMym, cycleBarMym, cycleBarMym, cycleBarMym, cycleBarMym,
   cycleBarMym, cycleBarMym, cycleBarMym, cycleBarMym]

/-- PSAR of `c6Mes`, computed below. -/
def c6MesPsar : List ℚ :=
  [2, 10, 2, 10, 2, 10, 2, 10, 2, 10, 2, 10, 2, 10, 2, 10, 2, 10, 2, 12, 1, 31/25]

/-- PSAR of `c6Mym`, computed below. -/
def c6MymPsar : List ℚ :=
  [2, 10, 2, 10, 2, 10, 2, 10, 2, 10, 2, 10, 2, 10, 2, 10, 2, 10, 2, 10, 2, 10]

lemma cycleStepA (o c : ℚ) (bs : List Bar) :
    psarGo true startAf 10 2 2 10 (mkBar o 10 2 c :: bs) =
      10 :: psarGo false startAf 2 10 2 10 bs := by
  norm_num [psarGo, mkBar, startAf, incAf, maxAf, min_def, max_def]

lemma cycleStepB (o c : ℚ) (bs : List Bar) :
    psarGo false startAf 2 10 2 10 (mkBar o 10 2 c :: bs) =
      2 :: psarGo true startAf 10 2 2 10 bs := by
  norm_num [psarGo, mkBar, startAf, incAf, maxAf, min_def, max_def]

lemma mesStep18 (bs : List Bar) :
    psarGo false startAf 2 10 2 10 (mkBar 10 12 6 11 :: bs) =
      2 :: psarGo true startAf 12 2 6 12 bs := by
  norm_num [psarGo, mkBar, startAf, incAf, maxAf, min_def, max_def]

lemma mesStep19 (bs : List Bar) :
    psarGo true startAf 12 2 6 12 (mkBar 3 4 1 2 :: bs) =
      12 :: psarGo false startAf 1 12 1 4 bs := by
  norm_num [psarGo, mkBar, startAf, incAf, maxAf, min_def, max_def]

lemma mesStep20 (bs : List Bar) :
    psarGo false startAf 1 12 1 4 (mkBar 11 13 9 12 :: bs) =
      1 :: psarGo true startAf 13 1 9 13 bs := by
  norm_num [psarGo, mkBar, startAf, incAf, maxAf, min_def, max_def]

lemma mesStep21 :
    psarGo true startAf 13 1 9 13 [mkBar 10 12 9 11] = [31/25] := by
  norm_num [psarGo, mkBar, startAf, incAf, maxAf, min_def, max_def]

lemma c6Mes_psar_eval : calculateParabolicSar c6Mes = c6MesPsar := by
  have h0 : calculateParabolicSar c6Mes =
      2 :: psarGo true startAf 10 2 2 10
        [cycleBarMes, cycleBarMes, cycleBarMes, cycleBarMes, cycleBarMes, cycleBarMes,
         cycleBarMes, cycleBarMes, cycleBarMes, cycleBarMes, cycleBarMes, cycleBarMes,
         cycleBarMes, cycleBarMes, cycleBarMes, cycleBarMes, cycleBarMes,
         mkBar 10 12 6 11, mkBar 3 4 1 2, mkBar 11 13 9 12, mkBar 10 12 9 11] := by
    norm_num [calculateParabolicSar, c6Mes, cycleBarMes, mkBar]
  rw [h0]
  rw [show cycleBarMes = mkBar 5 10 2 7 from rfl]
  rw [cycleStepA, cycleStepB, cycleStepA, cycleStepB, cycleStepA, cycleStepB,
    cycleStepA, cycleStepB, cycleStepA, cycleStepB, cycleStepA, cycleStepB,
    cycleStepA, cycleStepB, cycleStepA, cycleStepB, cycleStepA,
    mesStep18, mesStep19, mesStep20, mesStep21]
  rfl

lemma c6Mym_psar_eval : calculateParabolicSar c6Mym = c6MymPsar := by
  have h0 : calculateParabolicSar c6Mym =
      2 :: psarGo true startAf 10 2 2 10
        [cycleBarMym, cycleBarMym, cycleBarMym, cycleBarMym, cycleBarMym, cycleBarMym,
         cycleBarMym, cycleBarMym, cycleBarMym, cycleBarMym, cycleBarMym, cycleBarMym,
         cycleBarMym, cycleBarMym, cycleBarMym, cycleBarMym, cycleBarMym, cycleBarMym,
         cycleBarMym, cycleBarMym, cycleBarMym] := by
    norm_num [calculateParabolicSar, c6Mym, cycleBarMym, mkBar]
  rw [h0]
  rw [show cycleBarMym = mkBar 5 10 2 15 from rfl]
  rw [cycleStepA, cycleStepB, cycleStepA, cycleStepB, cycleStepA, cycleStepB,
    cycleStepA, cycleStepB, cycleStepA, cycleStepB, cycleStepA, cycleStepB,
    cycleStepA, cycleStepB, cycleStepA, cycleStepB, cycleStepA, cycleStepB,
    cycleStepA, cycleStepB, cycleStepA]
  simp [psarGo, c6MymPsar]

lemma c6Mes_length : c6Mes.length = 22 := rfl

lemma c6Mym_length : c6Mym.length = 22 := rfl

lemma c6MesPsar_length : c6MesPsar.length = 22 := rfl

lemma c6_negQ1 : negIdxQ c6MesPsar 1 = 31/25 := rfl

lemma c6_negQ2 : negIdxQ c6MesPsar 2 = 1 := rfl

lemma c6_negQ3 : negIdxQ c6MesPsar 3 = 12 := rfl

lemma c6_negQ4 : negIdxQ c6MesPsar 4 = 2 := rfl

lemma c6_negB1 : negIdxBar c6Mes 1 = mkBar 10 12 9 11 := rfl

lemma c6_negB2 : negIdxBar c6Mes 2 = mkBar 11 13 9 12 := rfl

lemma c6_negB3 : negIdxBar c6Mes 3 = mkBar 3 4 1 2 := rfl

lemma c6_negB4 : negIdxBar c6Mes 4 = mkBar 10 12 6 11 := rfl

lemma c6_up1 : upFlipAt c6MesPsar c6Mes 1 = false := by
  norm_num [upFlipAt, c6_negQ1, c6_negQ2, c6_negB1, c6_negB2,
    isPsarPositiveOn, isPsarNegativeOn, mkBar]

lemma c6_up2 : upFlipAt c6MesPsar c6Mes 2 = false := by
  norm_num [upFlipAt, c6_negQ2, c6_negQ3, c6_negB2, c6_negB3,
    isPsarPositiveOn, isPsarNegativeOn, mkBar]

lemma c6_up3 : upFlipAt c6MesPsar c6Mes 3 = true := by
  norm_num [upFlipAt, c6_negQ3, c6_negQ4, c6_negB3, c6_negB4,
    isPsarPositiveOn, isPsarNegativeOn, mkBar]

lemma c6_findRecent : findRecentTrendChange c6MesPsar c6Mes = (true, 3) := by
  norm_num [findRecentTrendChange, c6MesPsar_length, c6_up1, c6_up2, c6_up3]

lemma c6_bsf : barsSinceFlip c6Mes = 3 := by
  norm_num [barsSinceFlip, c6Mes_psar_eval, c6_findRecent]

lemma c6_scanStep (i fuel : ℕ) (h : upFlipAt c6MesPsar c6Mes i = false) :
    trendChangeScan c6MesPsar c6Mes i (fuel + 1) =
      trendChangeScan c6MesPsar c6Mes (i + 1) fuel := by
  simp [trendChangeScan, h]

lemma c6_scanHit (i fuel : ℕ) (h : upFlipAt c6MesPsar c6Mes i = true) :
    trendChangeScan c6MesPsar c6Mes i (fuel + 1) =
      (some (negIdxQ c6MesPsar (i + 1)), some (negIdxQ c6MesPsar i)) := by
  simp [trendChangeScan, h]

lemma c6_scan : getTrendChangePsars c6MesPsar c6Mes = (some 2, some 12) := by
  have h : getTrendChangePsars c6MesPsar c6Mes = trendChangeScan c6MesPsar c6Mes 1 21 := by
    simp [getTrendChangePsars, c6MesPsar_length]
  rw [h, show (21 : ℕ) = 20 + 1 from rfl, c6_scanStep 1 20 c6_up1,
    show (20 : ℕ) = 19 + 1 from rfl, c6_scanStep 2 19 c6_up2,
    show (19 : ℕ) = 18 + 1 from rfl, c6_scanHit 3 18 c6_up3]
  norm_num [c6_negQ3, c6_negQ4]

lemma c6_diff : diffMes c6Mes = 10 := by
  norm_num [diffMes, c6Mes_psar_eval, c6_scan, abs_of_nonpos]

lemma c6_fp : firstPsarMes c6Mes = 12 := by
  norm_num [firstPsarMes, c6Mes_psar_eval, c6_scan]

lemma c6_lastN : lastNBars 3 c6Mes = [mkBar 3 4 1 2, mkBar 11 13 9 12, mkBar 10 12 9 11] := rfl

lemma c6_mh : maxHighSinceFlip c6Mes = 13 := by
  norm_num [maxHighSinceFlip, c6_bsf, c6Mes_length, highestHighSinceChange,
    c6_lastN, maxHighOf, mkBar, max_def]

lemma c6_lastQ : lastQ c6MesPsar = 31/25 := rfl

lemma c6_prevQ : prevQ c6MesPsar = 1 := rfl

lemma c6_lastBar : lastBar c6Mes = mkBar 10 12 9 11 := rfl

lemma c6_prevBar : prevBar c6Mes = mkBar 11 13 9 12 := rfl

lemma c6_psarLast : psarLast c6Mes = 31/25 := by
  simp only [psarLast, c6Mes_psar_eval, c6_lastQ]

lemma c6_psarPrev : psarPrevOf c6Mes = 1 := by
  norm_num [psarPrevOf, c6Mes_psar_eval, c6Mes_length, c6_prevQ]

lemma c6_trendUp : trendUpOf c6Mes = true := by
  norm_num [trendUpOf, c6_psarLast, c6_lastBar, mkBar]

lemma c6_trendDown : trendDownOf c6Mes = false := by
  norm_num [trendDownOf, c6_psarLast, c6_lastBar, mkBar]

lemma c6_flipUp : flipUpOf c6Mes = false := by
  norm_num [flipUpOf, c6_psarPrev, c6_prevBar, mkBar]

lemma c6_flipDown : flipDownOf c6Mes = false := by
  norm_num [flipDownOf, c6_trendDown]

lemma c6_buyInitial : buyInitial c6Mes c6Mym [] = false := by
  norm_num [buyInitial, c6_flipUp]

lemma c6_sellInitial : sellInitial c6Mes c6Mym [] = false := by
  norm_num [sellInitial, c6_flipDown]

lemma c6_lastQMym : lastQ c6MymPsar = 10 := rfl

lemma c6_lastBarMym : lastBar c6Mym = cycleBarMym := rfl

lemma c6_trendUpMym : trendUpOf c6Mym = true := by
  norm_num [trendUpOf, psarLast, c6Mym_psar_eval, c6_lastQMym, c6_lastBarMym,
    cycleBarMym, mkBar]

lemma c6_buyReentry : buyReentry c6Mes c6Mym [] = true := by
  norm_num [buyReentry, c6_bsf, c6_trendUp, c6_trendUpMym, c6_mh, c6_fp,
    c6_diff, c6_lastBar, mkBar, hasOpenPosition]

/-- C6 witness: on the concrete 22-bar MES/MYM histories the re-entry flag is
up with both initial flags down, and the engine goes long 12 contracts from a
Flat book, as the amended statement asserts. -/
theorem c6_witness :
    buyReentry c6Mes c6Mym [] = true ∧
    buyInitial c6Mes c6Mym [] = false ∧
    sellInitial c6Mes c6Mym [] = false ∧
    hasOpenPosition ([] : List ℤ) = false ∧
    2 ≤ barsSinceFlip c6Mes ∧ barsSinceFlip c6Mes ≤ 4 ∧
    (libRun c6Mes c6Mym [] [] libStDemo).1 = Decision.long ∧
    (libRun c6Mes c6Mym [] [] libStDemo).2.numberOfContracts = 12 := by
  have h1 := c6_amended.1 c6Mes c6Mym [] c6_buyReentry
  have h3 := c6_amended.2.2.1 c6Mes c6Mym [] [] libStDemo
    (by simp [c6Mes_length]) (by simp [c6Mym_length])
    c6_buyInitial c6_sellInitial c6_buyReentry
  refine ⟨c6_buyReentry, c6_buyInitial, c6_sellInitial, h1.1, h1.2.1, h1.2.2, h3.1, ?_⟩
  rw [h3.2]
  norm_num [c6_lastBar, c6_fp, c6_diff, mkBar]

/-! ### C7: lot conservation through the replay -/

/-- Backtest invariant: quantity conservation, the `positions` mirror of the
open lots, and the open lots being genuinely open with positive size. -/
def BTInv (bt : BTState) : Prop :=
  sumQty bt.openBatches + sumQty bt.completed = bt.entered ∧
  bt.positions = bt.openBatches.map posOf ∧
  (∀ l ∈ bt.openBatches, l.exitPrice = none) ∧
  (∀ l ∈ bt.openBatches, 0 < l.qty)

lemma btInv_init : BTInv initBT := by
  refine ⟨rfl, rfl, ?_, ?_⟩ <;> intro l hl <;> exact absurd hl (by simp [initBT])

lemma sumQty_nil : sumQty [] = 0 := rfl

lemma sumQty_cons (b : Lot) (bs : List Lot) : sumQty (b :: bs) = b.qty + sumQty bs := by
  simp [sumQty]

lemma sumQty_append (a b : List Lot) : sumQty (a ++ b) = sumQty a + sumQty b := by
  simp [sumQty]

lemma closeLot_qty (l : Lot) (price : ℚ) (r : ExitReason) :
    (closeLot l price r).qty = l.qty := rfl

lemma closeBatches_conserve (price : ℚ) (r : ExitReason) :
    ∀ (lots : List Lot) (rem : ℕ),
      sumQty (closeBatches rem price r lots).1 + sumQty (closeBatches rem price r lots).2 =
        sumQty lots := by
  intro lots
  induction lots with
  | nil => intro rem; simp [closeBatches, sumQty]
  | cons b bs ih =>
    intro rem
    simp only [closeBatches]
    split_ifs with h0 h1
    · simp [sumQty]
    · have h := ih (rem - b.qty)
      simp [sumQty, closeLot] at h ⊢
      omega
    · simp [sumQty, closeLot]
      omega

lemma closeBatches_open (price : ℚ) (r : ExitReason) :
    ∀ (lots : List Lot) (rem : ℕ), (∀ l ∈ lots, l.exitPrice = none) →
      ∀ l ∈ (closeBatches rem price r lots).1, l.exitPrice = none := by
  intro lots
  induction lots with
  | nil => intro rem _ l hl; simp [closeBatches] at hl
  | cons b bs ih =>
    intro rem hall l hl
    simp only [closeBatches] at hl
    split_ifs at hl with h0 h1
    · exact hall l hl
    · exact ih (rem - b.qty) (fun x hx => hall x (List.mem_cons_of_mem b hx)) l hl
    · rcases List.mem_cons.mp hl with h | h
      · subst h; exact hall b (List.mem_cons_self b bs)
      · exact hall l (List.mem_cons_of_mem b h)

lemma closeBatches_pos (price : ℚ) (r : ExitReason) :
    ∀ (lots : List Lot) (rem : ℕ), (∀ l ∈ lots, 0 < l.qty) →
      ∀ l ∈ (closeBatches rem price r lots).1, 0 < l.qty := by
  intro lots
  induction lots with
  | nil => intro rem _ l hl; simp [closeBatches] at hl
  | cons b bs ih =>
    intro rem hall l hl
    simp only [closeBatches] at hl
    split_ifs at hl with h0 h1
    · exact hall l hl
    · exact ih (rem - b.qty) (fun x hx => hall x (List.mem_cons_of_mem b hx)) l hl
    · rcases List.mem_cons.mp hl with h | h
      · subst h
        have hb := hall b (List.mem_cons_self b bs)
        show 0 < b.qty - rem
        omega
      · exact hall l (List.mem_cons_of_mem b h)

lemma stillOpenQty_of_open (lots : List Lot) (h : ∀ l ∈ lots, l.exitPrice = none) :
    stillOpenQty lots = sumQty lots := by
  unfold stillOpenQty sumQty
  rw [List.filter_eq_self.mpr]
  intro a ha
  simpa using h a ha

lemma stillOpenQty_allClosed (lots : List Lot) (price : ℚ) :
    stillOpenQty (lots.map (fun l => closeLot l price ExitReason.endOfData)) = 0 := by
  induction lots with
  | nil => rfl
  | cons b bs ih => simpa [stillOpenQty, closeLot] using ih

lemma sumQty_map_close (lots : List Lot) (price : ℚ) (r : ExitReason) :
    sumQty (lots.map (fun l => closeLot l price r)) = sumQty lots := by
  induction lots with
  | nil => rfl
  | cons b bs ih => simpa [sumQty, closeLot] using ih

lemma btOpen_inv (side : Dir) (q : ℕ) (price : ℚ) (bt : BTState)
    (h : BTInv bt) (hq : 0 < q) : BTInv (btOpen side q price bt) := by
  obtain ⟨h1, h2, h3, h4⟩ := h
  refine ⟨?_, ?_, ?_, ?_⟩
  · show sumQty (bt.openBatches ++ [Lot.mk side q price none none]) +
      sumQty bt.completed = bt.entered + q
    rw [sumQty_append]
    have hsq : sumQty [Lot.mk side q price none none] = q := rfl
    rw [hsq]
    omega
  · show bt.positions ++ [if side = Dir.long then (q : ℤ) else -(q : ℤ)] =
      (bt.openBatches ++ [Lot.mk side q price none none]).map posOf
    rw [List.map_append, h2]
    simp [posOf]
  · intro l hl
    simp only [btOpen, List.mem_append, List.mem_singleton] at hl
    rcases hl with hl | hl
    · exact h3 l hl
    · subst hl; rfl
  · intro l hl
    simp only [btOpen, List.mem_append, List.mem_singleton] at hl
    rcases hl with hl | hl
    · exact h4 l hl
    · subst hl; exact hq

lemma btClose_inv (q : ℕ) (price : ℚ) (r : ExitReason) (bt : BTState)
    (h : BTInv bt) : BTInv (btClose q price r bt) := by
  obtain ⟨h1, h2, h3, h4⟩ := h
  have hc := closeBatches_conserve price r bt.openBatches q
  refine ⟨?_, rfl, ?_, ?_⟩
  · show sumQty (closeBatches q price r bt.openBatches).1 +
      sumQty (bt.completed ++ (closeBatches q price r bt.openBatches).2) = bt.entered
    rw [sumQty_append]
    omega
  · exact closeBatches_open price r bt.openBatches q h3
  · exact closeBatches_pos price r bt.openBatches q h4

lemma addOnCheck_qty (data : List Bar) (pos : List ℤ) (s : IchimokuState)
    (a : Decision) (h : addOnCheck data pos s = some a) :
    a = Decision.addLong 12 ∨ a = Decision.addLong 6 ∨
    a = Decision.addShort 12 ∨ a = Decision.addShort 6 := by
  unfold addOnCheck at h
  simp only [] at h
  repeat' split at h
  all_goals first
    | (injection h with h; rw [← h]; simp)
    | injection h

lemma run_add_pos (data : List Bar) (pos : List ℤ) (st : IchimokuState) (q : ℕ)
    (h : (ichimokuRun data pos st).1 = Decision.addLong q ∨
         (ichimokuRun data pos st).1 = Decision.addShort q) : 0 < q := by
  unfold ichimokuRun at h
  split at h
  · rcases h with h | h <;> exact absurd h (by simp)
  · unfold decideRules at h
    cases hso : stopOutCheck data pos (updateState st data) with
    | some a =>
      rw [hso] at h
      have he := stopOutCheck_isExit _ _ _ _ hso
      subst he
      rcases h with h | h <;> exact absurd h (by simp)
    | none =>
      rw [hso] at h
      cases htp : tpCheck data pos (updateState st data) with
      | some r =>
        rw [htp] at h
        rcases tpCheck_isExitOrPartial _ _ _ _ htp with he | he <;>
          rcases h with h | h <;> rw [he] at h <;> exact absurd h (by simp)
      | none =>
        rw [htp] at h
        cases hec : entryCheck data pos with
        | some a =>
          rw [hec] at h
          rcases entryCheck_isEntry _ _ _ hec with he | he <;>
            subst he <;> rcases h with h | h <;> exact absurd h (by simp)
        | none =>
          rw [hec] at h
          cases hao : addOnCheck data pos (updateState st data) with
          | some a =>
            rw [hao] at h
            rcases addOnCheck_qty _ _ _ _ hao with he | he | he | he <;>
              subst he <;> rcases h with h | h <;>
              first
                | (injection h with h; omega)
                | exact absurd h (by simp)
          | none =>
            rw [hao] at h
            rcases h with h | h <;> exact absurd h (by simp)

lemma btStep_inv (pre : List Bar) (bt : BTState) (h : BTInv bt) :
    BTInv (btStep pre bt).2 := by
  have hinv1 : BTInv { bt with strat := (ichimokuRun pre bt.positions bt.strat).2 } :=
    ⟨h.1, h.2.1, h.2.2.1, h.2.2.2⟩
  cases ha : (ichimokuRun pre bt.positions bt.strat).1 with
  | stay => simpa [btStep, ha] using hinv1
  | long =>
    simp only [btStep, ha]
    exact btOpen_inv _ _ _ _ hinv1 (by norm_num)
  | short =>
    simp only [btStep, ha]
    exact btOpen_inv _ _ _ _ hinv1 (by norm_num)
  | exit =>
    simp only [btStep, ha]
    exact btClose_inv _ _ _ _ hinv1
  | partExit q =>
    simp only [btStep, ha]
    exact btClose_inv _ _ _ _ hinv1
  | addLong q =>
    simp only [btStep, ha]
    exact btOpen_inv _ _ _ _ hinv1 (run_add_pos pre bt.positions bt.strat q (Or.inl ha))
  | addShort q =>
    simp only [btStep, ha]
    exact btOpen_inv _ _ _ _ hinv1 (run_add_pos pre bt.positions bt.strat q (Or.inr ha))

lemma backtestGo_inv (full : List Bar) :
    ∀ (fuel idx : ℕ) (bt : BTState), BTInv bt → BTInv (backtestGo full fuel idx bt).2 := by
  intro fuel
  induction fuel with
  | zero => intro idx bt h; exact h
  | succ n ih =>
    intro idx bt h
    simp only [backtestGo]
    split_ifs with h5
    · exact ih (idx + 1) bt h
    · exact ih (idx + 1) _ (btStep_inv _ _ h)

lemma endOfData_inv (lastClose : ℚ) (bt : BTState) (h : BTInv bt) :
    stillOpenQty (endOfData lastClose bt).openBatches = 0 ∧
    sumQty (endOfData lastClose bt).completed = (endOfData lastClose bt).entered := by
  obtain ⟨h1, _, _, _⟩ := h
  constructor
  · exact stillOpenQty_allClosed bt.openBatches lastClose
  · show sumQty (bt.completed ++
      bt.openBatches.map (fun l => closeLot l lastClose ExitReason.endOfData)) = bt.entered
    rw [sumQty_append, sumQty_map_close]
    omega

lemma btInv_flat_iff (bt : BTState) (h : BTInv bt) :
    hasOpenPosition bt.positions = false ↔ bt.openBatches = [] := by
  obtain ⟨_, h2, _, h4⟩ := h
  rw [h2]
  cases hob : bt.openBatches with
  | nil => simp [hasOpenPosition]
  | cons b bs =>
    have hb : 0 < b.qty := h4 b (by rw [hob]; exact List.mem_cons_self b bs)
    constructor
    · intro hfalse
      exfalso
      simp only [hasOpenPosition, List.map_cons, List.any_cons, Bool.or_eq_false_iff] at hfalse
      have h0 : posOf b = 0 := by simpa using hfalse.1
      unfold posOf at h0
      split_ifs at h0 <;> omega
    · intro hnil
      exact absurd hnil (by simp)

lemma ichimokuBacktest_final (full : List Bar) :
    stillOpenQty ((ichimokuBacktest full).2).openBatches = 0 ∧
    sumQty ((ichimokuBacktest full).2).completed = ((ichimokuBacktest full).2).entered := by
  have hinv := backtestGo_inv full full.length 0 initBT btInv_init
  cases hl : full.getLast? with
  | none =>
    have hnil : full = [] := by
      cases full with
      | nil => rfl
      | cons a l => simp [List.getLast?] at hl
    subst hnil
    exact ⟨rfl, rfl⟩
  | some lb =>
    have h := endOfData_inv lb.close _ hinv
    simp only [ichimokuBacktest, hl]
    exact h

/-- C7: lot conservation.  At every point of the replay the open-lot quantity
plus the completed-trade quantity equals the total quantity ever entered, the
`positions` list is Flat exactly when the open-lot list is empty, and after
the end-of-data close-out no quantity is still open and the completed trades
carry the whole entered quantity. -/
theorem c7_lot_conservation (full : List Bar) (fuel idx : ℕ) :
    (stillOpenQty ((backtestGo full fuel idx initBT).2).openBatches +
       sumQty ((backtestGo full fuel idx initBT).2).completed =
       ((backtestGo full fuel idx initBT).2).entered) ∧
    (hasOpenPosition ((backtestGo full fuel idx initBT).2).positions = false ↔
       ((backtestGo full fuel idx initBT).2).openBatches = []) ∧
    stillOpenQty ((ichimokuBacktest full).2).openBatches = 0 ∧
    sumQty ((ichimokuBacktest full).2).completed = ((ichimokuBacktest full).2).entered := by
  have hinv := backtestGo_inv full fuel idx initBT btInv_init
  refine ⟨?_, btInv_flat_iff _ hinv, (ichimokuBacktest_final full).1,
    (ichimokuBacktest_final full).2⟩
  rw [stillOpenQty_of_open _ hinv.2.2.1]
  exact hinv.1

/-! ### C9: no look-ahead in the replay -/

lemma backtestGo_take (full : List Bar) (k : ℕ) :
    ∀ (fuel idx : ℕ) (bt : BTState), idx + fuel ≤ k →
      backtestGo (full.take k) fuel idx bt = backtestGo full fuel idx bt := by
  intro fuel
  induction fuel with
  | zero => intro idx bt _; rfl
  | succ n ih =>
    intro idx bt h
    have ht : (full.take k).take (idx + 1) = full.take (idx + 1) := by
      rw [List.take_take]
      congr 1
      omega
    simp only [backtestGo, ht]
    split_ifs with h5
    · rw [ih (idx + 1) bt (by omega)]
    · rw [ih (idx + 1) _ (by omega)]

lemma backtestGo_prefix (full : List Bar) :
    ∀ (f1 f2 idx : ℕ) (bt : BTState), f1 ≤ f2 →
      (backtestGo full f1 idx bt).1 = ((backtestGo full f2 idx bt).1).take f1 := by
  intro f1
  induction f1 with
  | zero => intro f2 idx bt _; rfl
  | succ n ih =>
    intro f2 idx bt h
    obtain ⟨m, rfl⟩ : ∃ m, f2 = m + 1 := ⟨f2 - 1, by omega⟩
    simp only [backtestGo]
    split_ifs with h5
    · show none :: (backtestGo full n (idx + 1) bt).1 =
        List.take (n + 1) (none :: (backtestGo full m (idx + 1) bt).1)
      rw [List.take_succ_cons, ih m (idx + 1) bt (by omega)]
    · show some (btStep (full.take (idx + 1)) bt).1 ::
          (backtestGo full n (idx + 1) (btStep (full.take (idx + 1)) bt).2).1 =
        List.take (n + 1) (some (btStep (full.take (idx + 1)) bt).1 ::
          (backtestGo full m (idx + 1) (btStep (full.take (idx + 1)) bt).2).1)
      rw [List.take_succ_cons, ih m (idx + 1) _ (by omega)]

lemma backtestGo_length (full : List Bar) :
    ∀ (fuel idx : ℕ) (bt : BTState), (backtestGo full fuel idx bt).1.length = fuel := by
  intro fuel
  induction fuel with
  | zero => intro idx bt; rfl
  | succ n ih =>
    intro idx bt
    simp only [backtestGo]
    split_ifs with h5 <;> simp [ih]

lemma ichimokuBacktest_fst (l : List Bar) :
    (ichimokuBacktest l).1 = (backtestGo l l.length 0 initBT).1 := by
  cases h : l.getLast? <;> simp [ichimokuBacktest, h]

/-- C9: no look-ahead.  Truncating the history after bar `i` leaves the
recorded decision list a prefix of the full run's, and in particular the
decision recorded at bar `i` itself is unchanged. -/
theorem c9_no_lookahead (full : List Bar) (i : ℕ) (h : i < full.length) :
    (ichimokuBacktest (full.take (i + 1))).1 = ((ichimokuBacktest full).1).take (i + 1) ∧
    ((ichimokuBacktest (full.take (i + 1))).1).getD i none =
      ((ichimokuBacktest full).1).getD i none := by
  have hlen : (full.take (i + 1)).length = i + 1 := by
    rw [List.length_take]
    omega
  have h1 : (ichimokuBacktest (full.take (i + 1))).1 =
      ((ichimokuBacktest full).1).take (i + 1) := by
    rw [ichimokuBacktest_fst, ichimokuBacktest_fst, hlen]
    rw [backtestGo_take full (i + 1) (i + 1) 0 initBT (by omega)]
    exact backtestGo_prefix full (i + 1) full.length 0 initBT (by omega)
  refine ⟨h1, ?_⟩
  rw [h1]
  rw [List.getD_eq_getElem?_getD, List.getD_eq_getElem?_getD, List.getElem?_take,
    if_pos (by omega : i < i + 1)]

/-- C9 witness: the six-bar history `c3Data`, truncated after bar index 2. -/
theorem c9_witness :
    2 < c3Data.length ∧
    (ichimokuBacktest (c3Data.take 3)).1 = ((ichimokuBacktest c3Data).1).take 3 ∧
    ((ichimokuBacktest (c3Data.take 3)).1).getD 2 none =
      ((ichimokuBacktest c3Data).1).getD 2 none :=
  ⟨by decide, (c9_no_lookahead c3Data 2 (by decide)).1, (c9_no_lookahead c3Data 2 (by decide)).2⟩
